import Mathlib

/-!
Shallow embedding of the room-creation / room-upgrade core of the
`src/api/client/room.rs` module of this repository: identifier validation,
power-level policy, and the two orchestrators (room creation and room
upgrade), modelled as explicit state-passing programs whose observable
behaviour is a trace of lock/append/alias/directory actions.

JSON values are modelled by an explicit inductive type; `ruma`'s bounded
`Int` (a 53-bit "js_int") is modelled as `Int` together with explicit range
checks; fallible code returns `Except ApiError`.
-/

namespace RoomCore

/-- Error kinds of the client-API error taxonomy (ruma `ErrorKind`),
restricted to the variants this module produces. -/
inductive ErrorKind where
  | Forbidden
  | InvalidParam
  | RoomInUse
  | UnsupportedRoomVersion
  | Exclusive
  | BadJson
  | Unknown
  deriving DecidableEq, Repr

/-- The `Error` type of the module: client-facing `BadRequest` errors with a
kind and message, and internal `bad_database` errors. -/
inductive ApiError where
  | BadRequest (kind : ErrorKind) (msg : String)
  | bad_database (msg : String)
  deriving DecidableEq, Repr

/-- A JSON value (models `serde_json::Value` / `CanonicalJsonValue`).
Objects are assoc lists of key-value pairs; insertion replaces an existing
key in place and otherwise appends at the end. -/
inductive JsonV where
  | null
  | bool (b : Bool)
  | int (n : Int)
  | str (s : String)
  | arr (elems : List JsonV)
  | obj (fields : List (String × JsonV))
  deriving Repr, Inhabited

/-- Assoc-list insertion: replace the first binding of `k` in place, else
append `(k, v)` at the end (models map insertion up to key order). -/
def assocSet : List (String × α) → String → α → List (String × α)
  | [], k, v => [(k, v)]
  | (k', v') :: rest, k, v =>
      if k' = k then (k, v) :: rest else (k', v') :: assocSet rest k v

/-- Assoc-list lookup. -/
def assocGet : List (String × α) → String → Option α
  | [], _ => none
  | (k', v') :: rest, k => if k' = k then some v' else assocGet rest k

/-- Assoc-list removal (models `BTreeMap::remove`). -/
def assocRemove : List (String × α) → String → List (String × α)
  | [], _ => []
  | (k', v') :: rest, k =>
      if k' = k then rest else (k', v') :: assocRemove rest k

/-- Lookup of a key in a JSON value, defined on objects. -/
def JsonV.get (v : JsonV) (k : String) : Option JsonV :=
  match v with
  | .obj fs => assocGet fs k
  | _ => none

/-- Key assignment on a JSON value (models `serde_json`'s `IndexMut` with a
string index: objects get the binding set; `null` is promoted to a
one-field object; other values are unreachable at the call sites). -/
def JsonV.set (v : JsonV) (k : String) (x : JsonV) : JsonV :=
  match v with
  | .obj fs => .obj (assocSet fs k x)
  | .null => .obj [(k, x)]
  | other => other

/-- Two-level assignment `v[k1][k2] = x` as performed by the chained
`serde_json` index expressions in `default_power_levels_content`: a missing
`k1` reads as `null`, which the inner assignment promotes to an object. -/
def JsonV.setPath2 (v : JsonV) (k1 k2 : String) (x : JsonV) : JsonV :=
  let inner := match v.get k1 with
    | some w => w
    | none => .null
  v.set k1 (inner.set k2 x)

/-- Two-level lookup `v[k1][k2]`. -/
def JsonV.getPath2 (v : JsonV) (k1 k2 : String) : Option JsonV :=
  match v.get k1 with
  | some w => w.get k2
  | none => none

/-- Room visibility (ruma `room::Visibility`). -/
inductive Visibility where
  | Public
  | Private
  deriving DecidableEq, Repr

/-- Room creation preset (`create_room::v3::RoomPreset`). -/
inductive RoomPreset where
  | PrivateChat
  | PublicChat
  | TrustedPrivateChat
  deriving DecidableEq, Repr

/-- Room versions (`RoomVersionId`), V1 through V11; `V11` exercises the
"V11 and later" match arms of the source. -/
inductive RoomVersion where
  | V1 | V2 | V3 | V4 | V5 | V6 | V7 | V8 | V9 | V10 | V11
  deriving DecidableEq, Repr

/-- String form of a room version (`RoomVersionId::as_str`). -/
def RoomVersion.str : RoomVersion → String
  | .V1 => "1" | .V2 => "2" | .V3 => "3" | .V4 => "4" | .V5 => "5"
  | .V6 => "6" | .V7 => "7" | .V8 => "8" | .V9 => "9" | .V10 => "10"
  | .V11 => "11"

/-- Whether a version is in the `V1 | ... | V10` arm of the source's match
statements (the arm that injects the legacy `creator` field). -/
def RoomVersion.isLegacy : RoomVersion → Bool
  | .V11 => false
  | _ => true

/-- Largest value of ruma's bounded `Int` (js_int): `2^53 - 1`. -/
def jsIntMax : Int := 9007199254740991

/-- Smallest value of ruma's bounded `Int` (js_int): `-(2^53 - 1)`. -/
def jsIntMin : Int := -9007199254740991

/-- `js_int::Int::checked_add`: the exact sum when it stays within the
js_int range, `none` on overflow. -/
def checked_add (a b : Int) : Option Int :=
  if jsIntMin ≤ a + b ∧ a + b ≤ jsIntMax then some (a + b) else none

/-- Serialization of `RoomPowerLevelsEventContent \x7b users, ..Default::default() \x7d`
(ruma skips every field that holds its default value, so with all other
fields at their defaults, only a non-empty `users` map is emitted). -/
def powerLevelsBaseJson (users : List (String × Int)) : JsonV :=
  .obj (if users.isEmpty then []
        else [("users", .obj (users.map fun p => (p.1, JsonV.int p.2)))])

/-- `default_power_levels_content` from `src/api/client/room.rs`: build the
structural defaults with the given `users` map, force the five hardened
event keys to 100 and the two poll-response keys to 0, force the five
call-related keys to 50 when the room is public, and finally shallow-merge
the top-level keys of the caller override (which must parse as a JSON
object, else `BadJson`). -/
def default_power_levels_content (power_level_content_override : Option JsonV)
    (visibility : Visibility) (users : List (String × Int)) :
    Except ApiError JsonV :=
  let c := powerLevelsBaseJson users
  let c := c.setPath2 "events" "m.room.power_levels" (.int 100)
  let c := c.setPath2 "events" "m.room.server_acl" (.int 100)
  let c := c.setPath2 "events" "m.room.tombstone" (.int 100)
  let c := c.setPath2 "events" "m.room.encryption" (.int 100)
  let c := c.setPath2 "events" "m.room.history_visibility" (.int 100)
  let c := c.setPath2 "events" "org.matrix.msc3381.poll.response" (.int 0)
  let c := c.setPath2 "events" "m.poll.response" (.int 0)
  let c :=
    if visibility = .Public then
      let c := c.setPath2 "events" "m.call.invite" (.int 50)
      let c := c.setPath2 "events" "m.call" (.int 50)
      let c := c.setPath2 "events" "m.call.member" (.int 50)
      let c := c.setPath2 "events" "org.matrix.msc3401.call" (.int 50)
      c.setPath2 "events" "org.matrix.msc3401.call.member" (.int 50)
    else c
  match power_level_content_override with
  | none => .ok c
  | some ov =>
      match ov with
      | .obj kvs => .ok (kvs.foldl (fun acc p => acc.set p.1 p.2) c)
      | _ => .error (.BadRequest .BadJson "Invalid power_level_content_override.")

/-- Whether a string contains a given character (`str::contains(char)`),
phrased over the character list so that it evaluates by reduction. -/
def containsChar (s : String) (c : Char) : Bool := s.data.any (fun a => a == c)

/-- Whether a string contains whitespace (`str::contains(char::is_whitespace)`). -/
def containsWhitespace (s : String) : Bool := s.data.any Char.isWhitespace

/-- `room_alias_check` from `src/api/client/room.rs`. Server-dependent
behaviour (forbidden-name regex, alias parsing, local alias resolution,
appservice namespaces) is supplied as predicates. `appservice_info` is the
alias-namespace matcher of the requesting appservice, when there is one. -/
def room_alias_check (forbidden_alias_names : String → Bool)
    (alias_parse_ok : String → Bool) (resolve_local_alias : String → Bool)
    (is_exclusive_alias : String → Bool)
    (appservice_info : Option (String → Bool)) (server_name : String)
    (room_alias_name : String) : Except ApiError String :=
  if containsChar room_alias_name ':' then
    .error (.BadRequest .InvalidParam
      "Room alias contained a colon which is not allowed.")
  else if containsWhitespace room_alias_name then
    .error (.BadRequest .InvalidParam
      "Room alias contained spaces which is not a valid room alias.")
  else if forbidden_alias_names room_alias_name then
    .error (.BadRequest .Unknown "Room alias name is forbidden.")
  else
    let full_room_alias := "#" ++ room_alias_name ++ ":" ++ server_name
    if ¬ alias_parse_ok full_room_alias then
      .error (.BadRequest .InvalidParam "Invalid room alias specified.")
    else if resolve_local_alias full_room_alias then
      .error (.BadRequest .RoomInUse "Room alias already exists.")
    else
      match appservice_info with
      | some ns_match =>
          if ¬ ns_match full_room_alias then
            .error (.BadRequest .Exclusive "Room alias is not in namespace.")
          else .ok full_room_alias
      | none =>
          if is_exclusive_alias full_room_alias then
            .error (.BadRequest .Exclusive "Room alias reserved by appservice.")
          else .ok full_room_alias

/-- `custom_room_id_check` from `src/api/client/room.rs`: note that,
unlike `room_alias_check`, the forbidden-name check runs before the colon
and whitespace checks. -/
def custom_room_id_check (forbidden_alias_names : String → Bool)
    (room_id_parse_ok : String → Bool) (server_name : String)
    (custom_room_id : String) : Except ApiError String :=
  if forbidden_alias_names custom_room_id then
    .error (.BadRequest .Unknown "Custom room ID is forbidden.")
  else if containsChar custom_room_id ':' then
    .error (.BadRequest .InvalidParam
      "Custom room ID contained a colon which is not allowed.")
  else if containsWhitespace custom_room_id then
    .error (.BadRequest .InvalidParam
      "Custom room ID contained spaces which is not valid.")
  else
    let full_room_id := "!" ++ custom_room_id ++ ":" ++ server_name
    if room_id_parse_ok full_room_id then .ok full_room_id
    else .error (.BadRequest .InvalidParam "Custom room ID could not be parsed")

/-- Content handed to `build_and_append_pdu`: either a structured JSON value
(for events this module constructs) or the raw text of a caller-supplied
`initial_state` event (the source compares that raw text against the
two-character empty-object literal). -/
inductive Content where
  | json (v : JsonV)
  | raw (s : String)
  deriving Repr, Inhabited

/-- `PduBuilder` restricted to the fields the excerpted routes set
(`unsigned`, `redacts` and `timestamp` are `None` at every call site of
this module and caller-supplied events only feed the fields below into the
observable behaviour modelled here). -/
structure PduB where
  event_type : String
  content : Content
  state_key : Option String := none
  deriving Repr, Inhabited

/-- Observable actions of the orchestrators: per-room lock acquisition and
release, PDU appends (recording the lock token's room, the target room, the
sender, the builder and the assigned event id), alias-store and
directory-store calls, invite dispatch (with its outcome), and admin
notices. -/
inductive Action where
  | acquire (room : String)
  | release (room : String)
  | append (token : String) (room : String) (sender : String) (pdu : PduB) (id : String)
  | aliasRemove (aliasName : String)
  | aliasSet (aliasName : String) (room : String)
  | invite (user : String) (room : String) (ok : Bool)
  | setPublic (room : String)
  | adminNotice
  deriving Repr, Inhabited

/-- Execution state threaded through an orchestration: the trace of actions
so far and the next event-id counter of the append service. -/
structure St where
  trace : List Action
  nextId : Nat
  deriving Repr, Inhabited

/-- Event id assigned to the `n`-th append of a run. -/
def eventId (n : Nat) : String := "$" ++ toString n

/-- A state-passing computation that can fail while keeping the trace (the
Rust routes keep all already-persisted events when an error aborts the rest
of the orchestration). -/
def M (α : Type) : Type := St → St × Except ApiError α

/-- Sequencing: run `x`; on success continue with `f`, on error keep the
state reached so far and propagate the error. -/
def M.bind (x : M α) (f : α → M β) : M β := fun st =>
  match x st with
  | (st', .ok a) => f a st'
  | (st', .error e) => (st', .error e)

/-- Pure result. -/
def M.pure (a : α) : M α := fun st => (st, .ok a)

/-- Early return with an error (`?` on an `Err` / explicit `return Err`). -/
def M.throw (e : ApiError) : M α := fun st => (st, .error e)

/-- Record a non-append action. -/
def M.record (a : Action) : M Unit := fun st =>
  ({ st with trace := st.trace ++ [a] }, .ok ())

/-- `build_and_append_pdu`: appends the event under the given lock token
and returns the freshly assigned event id. The append service itself is an
external collaborator; its own failure modes (authorization rejection,
store errors) are outside this module, so appends are modelled as
succeeding. `token` is the room of the mutex guard passed at the call
site. -/
def M.appendPdu (token room sender : String) (pdu : PduB) : M String := fun st =>
  ({ st with
      trace := st.trace ++ [.append token room sender pdu (eventId st.nextId)]
      nextId := st.nextId + 1 },
   .ok (eventId st.nextId))

/-- RAII lock scope: acquire the room's mutex, run the body, and release the
lock on every exit path (`drop` of the guard on normal flow and on `?`). -/
def M.withLock (room : String) (body : M α) : M α := fun st =>
  let st1 := { st with trace := st.trace ++ [.acquire room] }
  match body st1 with
  | (st2, r) => ({ st2 with trace := st2.trace ++ [.release room] }, r)

/-- Run an orchestration from the empty trace. -/
def M.run (x : M α) : Except ApiError α × List Action :=
  match x { trace := [], nextId := 0 } with
  | (st, r) => (r, st.trace)

/-- Power-levels event content (ruma `RoomPowerLevelsEventContent`), with
ruma's `Default` values; `notifications` is flattened to its single `room`
field. -/
structure PowerLevelsContent where
  ban : Int := 50
  events : List (String × Int) := []
  events_default : Int := 0
  invite : Int := 0
  kick : Int := 50
  redact : Int := 50
  state_default : Int := 50
  users : List (String × Int) := []
  users_default : Int := 0
  notifications_room : Int := 50
  deriving Repr, DecidableEq, Inhabited

/-- Serialization of `RoomPowerLevelsEventContent` (serde skips every field
that holds its default value and emits the rest in struct-field order). -/
def PowerLevelsContent.toJson (p : PowerLevelsContent) : JsonV :=
  .obj (List.flatten [
    if p.ban = 50 then [] else [("ban", JsonV.int p.ban)],
    if p.events.isEmpty then []
      else [("events", JsonV.obj (p.events.map fun q => (q.1, JsonV.int q.2)))],
    if p.events_default = 0 then [] else [("events_default", JsonV.int p.events_default)],
    if p.invite = 0 then [] else [("invite", JsonV.int p.invite)],
    if p.kick = 50 then [] else [("kick", JsonV.int p.kick)],
    if p.redact = 50 then [] else [("redact", JsonV.int p.redact)],
    if p.state_default = 50 then [] else [("state_default", JsonV.int p.state_default)],
    if p.users.isEmpty then []
      else [("users", JsonV.obj (p.users.map fun q => (q.1, JsonV.int q.2)))],
    if p.users_default = 0 then [] else [("users_default", JsonV.int p.users_default)],
    if p.notifications_room = 50 then []
      else [("notifications", JsonV.obj [("room", JsonV.int p.notifications_room)])]])

/-- Serialization of the `RoomMemberEventContent` join events built by both
routes (fields that are `None` are skipped; `membership` is always
present). -/
def memberJoinContent (displayname avatar_url blurhash : Option String)
    (is_direct : Option Bool) : JsonV :=
  .obj (List.flatten [
    (match avatar_url with | some a => [("avatar_url", JsonV.str a)] | none => []),
    (match displayname with | some d => [("displayname", JsonV.str d)] | none => []),
    (match is_direct with | some b => [("is_direct", JsonV.bool b)] | none => []),
    [("membership", JsonV.str "join")],
    (match blurhash with | some b => [("blurhash", JsonV.str b)] | none => [])])

/-- The fixed `TRANSFERABLE_STATE_EVENTS` list of the source. -/
def TRANSFERABLE_STATE_EVENTS : List String :=
  ["m.room.server_acl", "m.room.encryption", "m.room.name", "m.room.avatar",
   "m.room.topic", "m.room.guest_access", "m.room.history_visibility",
   "m.room.join_rules", "m.room.power_levels"]

/-- Environment of `upgrade_room_route`: server configuration, the freshly
generated replacement room id, sender profile fields, and the old room's
current-state projection as read through the state accessor. For the two
`room_state_get` + parse reads, `none` models an absent state event and
`some none` a stored event whose content fails to parse. -/
structure UpgradeEnv where
  supported_room_versions : List RoomVersion
  replacement_room : String
  sender_displayname : Option String := none
  sender_avatar_url : Option String := none
  sender_blurhash : Option String := none
  old_create_content : Option (Option (List (String × JsonV)))
  old_state : String → Option Content
  local_aliases : List String
  old_power_levels : Option (Option PowerLevelsContent)

/-- Transferable-state loop of the upgrade: for each event type of the
fixed list, read the old room's current content (skipping missing events)
and append it verbatim to the replacement room with the empty state key. -/
def transferStateEvents (env : UpgradeEnv) (sender replacement_room : String) :
    List String → M Unit
  | [] => M.pure ()
  | ty :: rest =>
      match env.old_state ty with
      | none => transferStateEvents env sender replacement_room rest
      | some c =>
          M.bind (M.appendPdu replacement_room replacement_room sender
            { event_type := ty, content := c, state_key := some "" })
            (fun _ => transferStateEvents env sender replacement_room rest)

/-- Alias-migration loop of the upgrade: unbind each local alias from the
old room and bind it to the replacement room. -/
def migrateAliases (replacement_room : String) : List String → M Unit
  | [] => M.pure ()
  | a :: rest =>
      M.bind (M.record (.aliasRemove a)) (fun _ =>
      M.bind (M.record (.aliasSet a replacement_room)) (fun _ =>
      migrateAliases replacement_room rest))

/-- Body of the replacement-room lock scope of `upgrade_room_route`: build
and append the new create event (creator injected for V1-V10, removed for
later versions; `room_version` and `predecessor` inserted), append the
sender's join, transfer the fixed state-event set, migrate local aliases,
then read the old room's power levels, compute the demotion level
`max(50, users_default + 1)` (overflow is `BadJson`) and append the demoted
power levels to the old room. The demotion append receives `state_lock`,
which at this point is the replacement room's guard. -/
def upgradeInReplacementLock (env : UpgradeEnv) (sender room_id : String)
    (new_version : RoomVersion) (tombstone_event_id : String) : M Unit :=
  match env.old_create_content with
  | none => M.throw (.bad_database "Found room without m.room.create event.")
  | some none => M.throw (.bad_database "Invalid room event in database.")
  | some (some cc) =>
      let cc :=
        if new_version.isLegacy then assocSet cc "creator" (.str sender)
        else assocRemove cc "creator"
      let cc := assocSet cc "room_version" (.str new_version.str)
      let cc := assocSet cc "predecessor"
        (.obj [("room_id", .str room_id), ("event_id", .str tombstone_event_id)])
      -- The round-trip validation of the assembled content always succeeds
      -- here: the content was read back as a canonical JSON object and only
      -- canonical values were inserted.
      M.bind (M.appendPdu env.replacement_room env.replacement_room sender
        { event_type := "m.room.create", content := .json (.obj cc),
          state_key := some "" }) (fun _ =>
      M.bind (M.appendPdu env.replacement_room env.replacement_room sender
        { event_type := "m.room.member",
          content := .json (memberJoinContent env.sender_displayname
            env.sender_avatar_url env.sender_blurhash none),
          state_key := some sender }) (fun _ =>
      M.bind (transferStateEvents env sender env.replacement_room
        TRANSFERABLE_STATE_EVENTS) (fun _ =>
      M.bind (migrateAliases env.replacement_room env.local_aliases) (fun _ =>
      match env.old_power_levels with
      | none => M.throw (.bad_database "Found room without m.room.create event.")
      | some none => M.throw (.bad_database "Invalid room event in database.")
      | some (some plc) =>
          match checked_add plc.users_default 1 with
          | none => M.throw (.BadRequest .BadJson
              "users_default power levels event content is not valid")
          | some s =>
              let new_level := max 50 s
              let plc := { plc with events_default := new_level, invite := new_level }
              M.bind (M.appendPdu env.replacement_room room_id sender
                { event_type := "m.room.power_levels",
                  content := .json plc.toJson, state_key := some "" })
                (fun _ => M.pure ())))))

/-- `upgrade_room_route` from `src/api/client/room.rs`: reject unsupported
target versions, append the tombstone to the old room under the old room's
lock, drop that lock, then perform the rest of the upgrade under the
replacement room's lock and return the replacement room id. -/
def upgrade_room_route (env : UpgradeEnv) (sender room_id : String)
    (new_version : RoomVersion) : M String :=
  if new_version ∈ env.supported_room_versions then
    M.bind (M.withLock room_id
      (M.appendPdu room_id room_id sender
        { event_type := "m.room.tombstone",
          content := .json (.obj [("body", .str "This room has been replaced"),
            ("replacement_room", .str env.replacement_room)]),
          state_key := some "" })) (fun tombstone_event_id =>
    M.bind (M.withLock env.replacement_room
      (upgradeInReplacementLock env sender room_id new_version tombstone_event_id))
      (fun _ => M.pure env.replacement_room))
  else
    M.throw (.BadRequest .UnsupportedRoomVersion
      "This server does not support that room version.")

/-- Environment of `create_room_route`: server configuration, sender
status, the freshly generated random room id, the sender's profile fields,
and the outcome of the external alias/directory stores. `invite_ok` (the
outcome of `invite_helper` per invitee) is passed separately to
`create_room_route` because the route only logs it. -/
structure CreateEnv where
  allow_room_creation : Bool
  is_admin : Bool
  lockdown_public_room_directory : Bool
  admin_room_notices : Bool
  server_name : String
  supported_room_versions : List RoomVersion
  default_room_version : RoomVersion
  fresh_room_id : String
  shortroomid_exists : String → Bool
  forbidden_alias_names : String → Bool
  alias_parse_ok : String → Bool
  room_id_parse_ok : String → Bool
  resolve_local_alias : String → Bool
  is_exclusive_alias : String → Bool
  allow_encryption : Bool
  sender_displayname : Option String := none
  sender_avatar_url : Option String := none
  sender_blurhash : Option String := none
  set_alias_ok : Bool := true
  set_public_ok : Bool := true

/-- The request body of `create_room::v3::Request`, restricted to the
fields the route reads. Caller-supplied raw JSON is modelled by its parse
outcome: `creation_content = some none` is a supplied document that fails
to deserialize as a canonical JSON object, `some (some fields)` one that
parses to the given object; an `initial_state` entry of `none` is one that
fails to deserialize as a `PduBuilder`. -/
structure CreateRoomBody where
  sender_user : String
  room_id : Option String := none
  visibility : Visibility := .Private
  preset : Option RoomPreset := none
  room_version : Option RoomVersion := none
  creation_content : Option (Option (List (String × JsonV))) := none
  room_alias_name : Option String := none
  initial_state : List (Option PduB) := []
  name : Option String := none
  topic : Option String := none
  invite : List String := []
  is_direct : Bool := false
  power_level_content_override : Option JsonV := none
  appservice_info : Option (String → Bool) := none

/-- Create-event content assembly of `create_room_route`: a supplied
document must parse as a canonical JSON object (else the internal
`bad_database` error) and gets `creator` injected for legacy versions and
`room_version` injected for all versions; an absent document synthesizes
the protocol default for the resolved version. -/
def buildCreateContent (sender : String) (room_version : RoomVersion)
    (creation_content : Option (Option (List (String × JsonV)))) :
    Except ApiError JsonV :=
  match creation_content with
  | some none =>
      .error (.bad_database "Failed to deserialise content as canonical JSON.")
  | some (some cc) =>
      let cc := if room_version.isLegacy then assocSet cc "creator" (.str sender)
        else cc
      .ok (.obj (assocSet cc "room_version" (.str room_version.str)))
  | none =>
      let base : List (String × JsonV) :=
        if room_version.isLegacy then [("creator", .str sender)] else []
      .ok (.obj (assocSet base "room_version" (.str room_version.str)))

/-- Whether a caller-supplied builder's content is the literal empty JSON
object (the source compares the raw text against the two-character
empty-object literal; a structured empty object serializes to exactly that
text). -/
def contentIsEmptyObjLiteral : Content → Bool
  | .raw s => s = "\x7b\x7d"
  | .json (.obj []) => true
  | .json _ => false

/-- The `initial_state` loop of `create_room_route`: abort on an entry that
fails to deserialize; skip an entry whose content is the literal empty
object; default a missing state key to the empty string; skip encryption
events when the server disables encryption; append everything else in list
order under the held lock. -/
def processInitialState (allow_encryption : Bool) (sender room_id : String) :
    List (Option PduB) → M Unit
  | [] => M.pure ()
  | none :: _ =>
      M.throw (.BadRequest .InvalidParam "Invalid initial state event.")
  | some pb :: rest =>
      if contentIsEmptyObjLiteral pb.content then
        processInitialState allow_encryption sender room_id rest
      else
        let pb := { pb with state_key := some (pb.state_key.getD "") }
        if pb.event_type = "m.room.encryption" ∧ ¬ allow_encryption then
          processInitialState allow_encryption sender room_id rest
        else
          M.bind (M.appendPdu room_id room_id sender pb)
            (fun _ => processInitialState allow_encryption sender room_id rest)

/-- The invite loop of `create_room_route`: dispatch an invite to each
invitee in order after the lock has been released; a failed dispatch is
logged (recorded in the trace with `ok := false`) and never propagated. -/
def dispatchInvites (invite_ok : String → Bool) (room_id : String) :
    List String → M Unit
  | [] => M.pure ()
  | u :: rest =>
      M.bind (M.record (.invite u room_id (invite_ok u)))
        (fun _ => dispatchInvites invite_ok room_id rest)

/-- The `users` map seeded into the power-levels content: the creator at
level 100 and, for the trusted-private-chat preset, every invitee at level
100 as well. -/
def usersSeed (sender : String) (preset : RoomPreset) (invite : List String) :
    List (String × Int) :=
  if preset = .TrustedPrivateChat then
    invite.foldl (fun acc u => assocSet acc u 100) [(sender, 100)]
  else [(sender, 100)]

/-- The preset resolution of `create_room_route`: an absent preset defaults
to public chat for public visibility and private chat otherwise. -/
def resolvePreset (body : CreateRoomBody) : RoomPreset :=
  body.preset.getD (match body.visibility with
    | .Public => .PublicChat
    | .Private => .PrivateChat)

/-- Room-version resolution of `create_room_route`: a caller-specified
version must be in the supported set, else the server default is used. -/
def resolveRoomVersion (env : CreateEnv) (body : CreateRoomBody) :
    Except ApiError RoomVersion :=
  match body.room_version with
  | some v =>
      if v ∈ env.supported_room_versions then .ok v
      else .error (.BadRequest .UnsupportedRoomVersion
        "This server does not support that room version.")
  | none => .ok env.default_room_version

/-- Alias pre-validation of `create_room_route` (run inside the lock
scope): validate the requested alias local-part, if any. -/
def resolveAlias (env : CreateEnv) (body : CreateRoomBody) :
    Except ApiError (Option String) :=
  match body.room_alias_name with
  | some a =>
      (room_alias_check env.forbidden_alias_names env.alias_parse_ok
        env.resolve_local_alias env.is_exclusive_alias body.appservice_info
        env.server_name a).map some
  | none => .ok none

/-- Room-identifier resolution of `create_room_route`: a custom id is
validated by `custom_room_id_check`, otherwise a fresh random id is
generated (`RoomId::new`). -/
def resolveRoomId (env : CreateEnv) (body : CreateRoomBody) :
    Except ApiError String :=
  match body.room_id with
  | some custom =>
      custom_room_id_check env.forbidden_alias_names env.room_id_parse_ok
        env.server_name custom
  | none => .ok ("!" ++ env.fresh_room_id ++ ":" ++ env.server_name)

/-- Lift an `Except` computation into the orchestration (a `?` on a plain
fallible call). -/
def M.lift (r : Except ApiError α) : M α := fun st => (st, r)

/-- Content of the join-rules bootstrap event. -/
def joinRulesContent (preset : RoomPreset) : JsonV :=
  .obj [("join_rule", .str (match preset with
    | .PublicChat => "public"
    | _ => "invite"))]

/-- Content of the guest-access bootstrap event. -/
def guestAccessContent (preset : RoomPreset) : JsonV :=
  .obj [("guest_access", .str (match preset with
    | .PublicChat => "forbidden"
    | _ => "can_join"))]

/-- Body of the single lock scope of `create_room_route`: alias
pre-validation, room-version resolution, create-content assembly, then the
fixed bootstrap appends (create, creator join, power levels, optional
canonical alias, join rules, history visibility, guest access, the
`initial_state` loop, optional name, optional topic). Returns the
validated alias for the post-unlock phase. -/
def createRoomLocked (env : CreateEnv) (body : CreateRoomBody)
    (room_id : String) : M (Option String) :=
  M.bind (M.lift (resolveAlias env body)) (fun aliasOpt =>
  M.bind (M.lift (resolveRoomVersion env body)) (fun room_version =>
  M.bind (M.lift (buildCreateContent body.sender_user room_version
    body.creation_content)) (fun create_content =>
  M.bind (M.appendPdu room_id room_id body.sender_user
    { event_type := "m.room.create", content := .json create_content,
      state_key := some "" }) (fun _ =>
  M.bind (M.appendPdu room_id room_id body.sender_user
    { event_type := "m.room.member",
      content := .json (memberJoinContent env.sender_displayname
        env.sender_avatar_url env.sender_blurhash (some body.is_direct)),
      state_key := some body.sender_user }) (fun _ =>
  M.bind (M.lift (default_power_levels_content
    body.power_level_content_override body.visibility
    (usersSeed body.sender_user (resolvePreset body) body.invite)))
    (fun power_levels_content =>
  M.bind (M.appendPdu room_id room_id body.sender_user
    { event_type := "m.room.power_levels",
      content := .json power_levels_content, state_key := some "" }) (fun _ =>
  M.bind (match aliasOpt with
    | some a =>
        M.bind (M.appendPdu room_id room_id body.sender_user
          { event_type := "m.room.canonical_alias",
            content := .json (.obj [("alias", .str a)]), state_key := some "" })
          (fun _ => M.pure ())
    | none => M.pure ()) (fun _ =>
  M.bind (M.appendPdu room_id room_id body.sender_user
    { event_type := "m.room.join_rules",
      content := .json (joinRulesContent (resolvePreset body)),
      state_key := some "" }) (fun _ =>
  M.bind (M.appendPdu room_id room_id body.sender_user
    { event_type := "m.room.history_visibility",
      content := .json (.obj [("history_visibility", .str "shared")]),
      state_key := some "" }) (fun _ =>
  M.bind (M.appendPdu room_id room_id body.sender_user
    { event_type := "m.room.guest_access",
      content := .json (guestAccessContent (resolvePreset body)),
      state_key := some "" }) (fun _ =>
  M.bind (processInitialState env.allow_encryption body.sender_user room_id
    body.initial_state) (fun _ =>
  M.bind (match body.name with
    | some n =>
        M.bind (M.appendPdu room_id room_id body.sender_user
          { event_type := "m.room.name",
            content := .json (.obj [("name", .str n)]), state_key := some "" })
          (fun _ => M.pure ())
    | none => M.pure ()) (fun _ =>
  M.bind (match body.topic with
    | some t =>
        M.bind (M.appendPdu room_id room_id body.sender_user
          { event_type := "m.room.topic",
            content := .json (.obj [("topic", .str t)]), state_key := some "" })
          (fun _ => M.pure ())
    | none => M.pure ()) (fun _ =>
  M.pure aliasOpt))))))))))))))

/-- Pre-lock phase of `create_room_route`: the room-creation-disabled gate,
room-identifier resolution, the existing-room check, and the
public-directory lockdown gate (which emits an admin notice when
configured). -/
def createRoomChecks (env : CreateEnv) (body : CreateRoomBody) : M String :=
  if !env.allow_room_creation ∧ body.appservice_info.isNone ∧ !env.is_admin then
    M.throw (.BadRequest .Forbidden "Room creation has been disabled.")
  else
    M.bind (M.lift (resolveRoomId env body)) (fun room_id =>
    if env.shortroomid_exists room_id then
      M.throw (.BadRequest .RoomInUse "Room with that custom room ID already exists")
    else if body.visibility = .Public ∧ env.lockdown_public_room_directory
        ∧ !env.is_admin ∧ body.appservice_info.isNone then
      if env.admin_room_notices then
        M.bind (M.record .adminNotice) (fun _ =>
          M.throw (.BadRequest .Forbidden
            "Publishing rooms to the room directory is not allowed"))
      else
        M.throw (.BadRequest .Forbidden
          "Publishing rooms to the room directory is not allowed")
    else
      M.pure room_id)

/-- Post-unlock alias registration: bind the requested alias to the new
room, when one was requested (`set_alias` is fallible with `?`). -/
def registerAlias (env : CreateEnv) (aliasOpt : Option String)
    (room_id : String) : M Unit :=
  match aliasOpt with
  | some a =>
      if env.set_alias_ok then M.record (.aliasSet a room_id)
      else M.throw (.bad_database "set_alias failed")
  | none => M.pure ()

/-- Post-unlock directory publication: publish a public room to the room
directory (`set_public` is fallible with `?`) and emit an admin notice when
configured. -/
def publishRoom (env : CreateEnv) (body : CreateRoomBody) (room_id : String) :
    M Unit :=
  if body.visibility = .Public then
    if env.set_public_ok then
      M.bind (M.record (.setPublic room_id)) (fun _ =>
        if env.admin_room_notices then M.record .adminNotice else M.pure ())
    else M.throw (.bad_database "set_public failed")
  else M.pure ()

/-- `create_room_route` from `src/api/client/room.rs`: pre-lock gates and
identifier resolution, the bootstrap appends under the single held room
lock, then the post-unlock phase (invite dispatch with swallowed failures,
alias registration, directory publication) and the response carrying the
new room id. -/
def create_room_route (env : CreateEnv) (body : CreateRoomBody)
    (invite_ok : String → Bool) : M String :=
  M.bind (createRoomChecks env body) (fun room_id =>
  M.bind (M.withLock room_id (createRoomLocked env body room_id))
    (fun aliasOpt =>
  M.bind (dispatchInvites invite_ok room_id body.invite) (fun _ =>
  M.bind (registerAlias env aliasOpt room_id) (fun _ =>
  M.bind (publishRoom env body room_id) (fun _ =>
  M.pure room_id)))))

/-! ### Helper lemmas about assoc lists and the override merge -/

theorem assocGet_set_self (fs : List (String × α)) (k : String) (v : α) :
    assocGet (assocSet fs k v) k = some v := by
  induction fs with
  | nil => simp [assocSet, assocGet]
  | cons p rest ih =>
      by_cases h : p.1 = k
      · simp [assocSet, assocGet, h]
      · simp [assocSet, assocGet, h, ih]

theorem assocGet_set_ne (fs : List (String × α)) (k k' : String) (v : α)
    (h : k' ≠ k) : assocGet (assocSet fs k v) k' = assocGet fs k' := by
  induction fs with
  | nil =>
      simp only [assocSet, assocGet]
      rw [if_neg (fun hh => h hh.symm)]
  | cons p rest ih =>
      by_cases hp : p.1 = k
      · subst hp
        simp only [assocSet, if_pos rfl, assocGet]
        rw [if_neg (fun hh => h hh.symm), if_neg (fun hh => h hh.symm)]
      · simp only [assocSet, if_neg hp, assocGet, ih]

theorem assocGet_eq_none_of_not_mem (fs : List (String × α)) (k : String)
    (h : k ∉ fs.map Prod.fst) : assocGet fs k = none := by
  induction fs with
  | nil => rfl
  | cons p rest ih =>
      simp only [List.map_cons, List.mem_cons] at h
      push_neg at h
      simp only [assocGet]
      rw [if_neg (fun hh => h.1 hh.symm)]
      exact ih h.2

/-- The shallow override merge of `default_power_levels_content`. -/
def mergeOverride (c : JsonV) (kvs : List (String × JsonV)) : JsonV :=
  kvs.foldl (fun acc p => acc.set p.1 p.2) c

theorem mergeOverride_get_of_not_mem (kvs : List (String × JsonV))
    (fs : List (String × JsonV)) (k : String) (h : assocGet kvs k = none) :
    (mergeOverride (.obj fs) kvs).get k = assocGet fs k := by
  induction kvs generalizing fs with
  | nil => rfl
  | cons p rest ih =>
      simp only [assocGet] at h
      by_cases hp : p.1 = k
      · simp [hp] at h
      · simp only [if_neg hp] at h
        simpa [mergeOverride, JsonV.set, JsonV.get, assocGet_set_ne _ _ _ _
          (fun hh => hp hh.symm)] using ih (assocSet fs p.1 p.2) h

theorem mergeOverride_get (kvs : List (String × JsonV))
    (fs : List (String × JsonV)) (k : String)
    (hnd : (kvs.map Prod.fst).Nodup) :
    (mergeOverride (.obj fs) kvs).get k
      = (match assocGet kvs k with
         | some v => some v
         | none => assocGet fs k) := by
  induction kvs generalizing fs with
  | nil => rfl
  | cons p rest ih =>
      simp only [List.map_cons, List.nodup_cons] at hnd
      by_cases hp : p.1 = k
      · have hrest : assocGet rest k = none := by
          apply assocGet_eq_none_of_not_mem
          rw [← hp]
          exact hnd.1
        have := ih (assocSet fs p.1 p.2) hnd.2
        simp only [mergeOverride, List.foldl_cons, JsonV.set] at *
        rw [this, hrest]
        simp [assocGet, hp, assocGet_set_self]
      · have := ih (assocSet fs p.1 p.2) hnd.2
        simp only [mergeOverride, List.foldl_cons, JsonV.set] at *
        rw [this]
        cases hr : assocGet rest k with
        | some v => simp [assocGet, hp, hr]
        | none =>
            simp [assocGet, hp, hr,
              assocGet_set_ne _ _ _ _ (fun hh => hp hh.symm)]

/-- The `events` map of the computed (pre-override) power-levels content:
the five hardened keys at 100, the two poll-response keys at 0, and — for a
public room — the five call keys at 50, in insertion order. -/
def plEventsList (vis : Visibility) : List (String × JsonV) :=
  [("m.room.power_levels", .int 100),
   ("m.room.server_acl", .int 100),
   ("m.room.tombstone", .int 100),
   ("m.room.encryption", .int 100),
   ("m.room.history_visibility", .int 100),
   ("org.matrix.msc3381.poll.response", .int 0),
   ("m.poll.response", .int 0)]
  ++ (if vis = .Public then
      [("m.call.invite", .int 50),
       ("m.call", .int 50),
       ("m.call.member", .int 50),
       ("org.matrix.msc3401.call", .int 50),
       ("org.matrix.msc3401.call.member", .int 50)]
     else [])

/-- The computed (pre-override) power-levels content. -/
def computedPL (vis : Visibility) (users : List (String × Int)) : JsonV :=
  .obj ((if users.isEmpty then []
         else [("users", .obj (users.map fun p => (p.1, JsonV.int p.2)))])
        ++ [("events", .obj (plEventsList vis))])

theorem default_power_levels_content_none (vis : Visibility)
    (users : List (String × Int)) :
    default_power_levels_content none vis users = .ok (computedPL vis users) := by
  cases users with
  | nil => cases vis <;> rfl
  | cons u us => cases vis <;> rfl

theorem computedPL_get_events (vis : Visibility) (users : List (String × Int)) :
    (computedPL vis users).get "events" = some (.obj (plEventsList vis)) := by
  cases users with
  | nil => rfl
  | cons u us => rfl

theorem default_power_levels_content_obj (kvs : List (String × JsonV))
    (vis : Visibility) (users : List (String × Int)) :
    default_power_levels_content (some (.obj kvs)) vis users
      = .ok (mergeOverride (computedPL vis users) kvs) := by
  cases users with
  | nil => cases vis <;> rfl
  | cons u us => cases vis <;> rfl

/-! ### C2 -/

/-- C2 counterexample: the override is the JSON object with a top-level
`events` key whose value is the empty object — it contains none of the
five hardened keys under `events` — yet the returned content does not map
`m.room.power_levels` (or any hardened key) to 100: the wholesale top-level
merge replaced the entire `events` object, so the lookup yields `none`,
not level 100. -/
theorem c2_hardened_keys_counterexample :
    (default_power_levels_content (some (.obj [("events", .obj [])])) .Private
        [("@alice:example.com", 100)]).map
      (fun c => c.getPath2 "events" "m.room.power_levels") = .ok none
    ∧ (Except.ok (none : Option JsonV) : Except ApiError (Option JsonV))
        ≠ .ok (some (.int 100)) := by
  constructor
  · rfl
  · intro h
    injection h with h'
    cases h'

/-- C2 (amended): for every call whose override is absent or is a JSON
object without a top-level `events` key, the returned content maps each of
the five hardened event types to level 100; and for such a call with
public visibility it maps the five call-related event types to level 50. -/
theorem c2_hardened_keys_amended (ov : Option JsonV) (vis : Visibility)
    (users : List (String × Int))
    (h : ov = none ∨ ∃ kvs, ov = some (.obj kvs) ∧ assocGet kvs "events" = none) :
    ∃ c, default_power_levels_content ov vis users = .ok c
      ∧ c.get "events" = some (.obj (plEventsList vis))
      ∧ c.getPath2 "events" "m.room.power_levels" = some (.int 100)
      ∧ c.getPath2 "events" "m.room.server_acl" = some (.int 100)
      ∧ c.getPath2 "events" "m.room.tombstone" = some (.int 100)
      ∧ c.getPath2 "events" "m.room.encryption" = some (.int 100)
      ∧ c.getPath2 "events" "m.room.history_visibility" = some (.int 100)
      ∧ (vis = .Public →
          c.getPath2 "events" "m.call.invite" = some (.int 50)
          ∧ c.getPath2 "events" "m.call" = some (.int 50)
          ∧ c.getPath2 "events" "m.call.member" = some (.int 50)
          ∧ c.getPath2 "events" "org.matrix.msc3401.call" = some (.int 50)
          ∧ c.getPath2 "events" "org.matrix.msc3401.call.member" = some (.int 50)) := by
  have key : ∀ c : JsonV, c.get "events" = some (.obj (plEventsList vis)) →
      c.getPath2 "events" "m.room.power_levels" = some (.int 100)
      ∧ c.getPath2 "events" "m.room.server_acl" = some (.int 100)
      ∧ c.getPath2 "events" "m.room.tombstone" = some (.int 100)
      ∧ c.getPath2 "events" "m.room.encryption" = some (.int 100)
      ∧ c.getPath2 "events" "m.room.history_visibility" = some (.int 100)
      ∧ (vis = .Public →
          c.getPath2 "events" "m.call.invite" = some (.int 50)
          ∧ c.getPath2 "events" "m.call" = some (.int 50)
          ∧ c.getPath2 "events" "m.call.member" = some (.int 50)
          ∧ c.getPath2 "events" "org.matrix.msc3401.call" = some (.int 50)
          ∧ c.getPath2 "events" "org.matrix.msc3401.call.member" = some (.int 50)) := by
    intro c hc
    unfold JsonV.getPath2
    rw [hc]
    cases vis with
    | Public => refine ⟨rfl, rfl, rfl, rfl, rfl, fun _ => ⟨rfl, rfl, rfl, rfl, rfl⟩⟩
    | Private =>
        refine ⟨rfl, rfl, rfl, rfl, rfl, fun hv => absurd hv (by simp)⟩
  rcases h with rfl | ⟨kvs, rfl, hk⟩
  · refine ⟨computedPL vis users, default_power_levels_content_none vis users, ?_, ?_⟩
    · exact computedPL_get_events vis users
    · exact key _ (computedPL_get_events vis users)
  · refine ⟨mergeOverride (computedPL vis users) kvs,
      default_power_levels_content_obj kvs vis users, ?_, ?_⟩
    · unfold computedPL
      rw [mergeOverride_get_of_not_mem _ _ _ hk]
      have := computedPL_get_events vis users
      unfold computedPL at this
      simpa [JsonV.get] using this
    · apply key
      unfold computedPL
      rw [mergeOverride_get_of_not_mem _ _ _ hk]
      have := computedPL_get_events vis users
      unfold computedPL at this
      simpa [JsonV.get] using this

/-- C2 witness: a concrete override with no top-level `events` key, public
visibility — the claim's hypothesis holds and the hardened and call keys
come out at 100 and 50. -/
theorem c2_hardened_keys_amended_witness :
    ((some (JsonV.obj [("ban", .int 75)]) : Option JsonV) = none
      ∨ ∃ kvs, (some (JsonV.obj [("ban", .int 75)]) : Option JsonV)
          = some (.obj kvs) ∧ assocGet kvs "events" = none)
    ∧ ∃ c, default_power_levels_content (some (.obj [("ban", .int 75)]))
          .Public [("@alice:example.com", 100)] = .ok c
        ∧ c.get "events" = some (.obj (plEventsList .Public))
        ∧ c.getPath2 "events" "m.room.power_levels" = some (.int 100)
        ∧ c.getPath2 "events" "m.room.server_acl" = some (.int 100)
        ∧ c.getPath2 "events" "m.room.tombstone" = some (.int 100)
        ∧ c.getPath2 "events" "m.room.encryption" = some (.int 100)
        ∧ c.getPath2 "events" "m.room.history_visibility" = some (.int 100)
        ∧ (Visibility.Public = .Public →
            c.getPath2 "events" "m.call.invite" = some (.int 50)
            ∧ c.getPath2 "events" "m.call" = some (.int 50)
            ∧ c.getPath2 "events" "m.call.member" = some (.int 50)
            ∧ c.getPath2 "events" "org.matrix.msc3401.call" = some (.int 50)
            ∧ c.getPath2 "events" "org.matrix.msc3401.call.member" = some (.int 50)) := by
  constructor
  · exact Or.inr ⟨_, rfl, rfl⟩
  · exact c2_hardened_keys_amended _ _ _ (Or.inr ⟨_, rfl, rfl⟩)

/-! ### C3 -/

/-- Whether a JSON value is an object. -/
def JsonV.isObj : JsonV → Bool
  | .obj _ => true
  | _ => false

/-- C3: an override that parses as a JSON object is shallow-merged last —
the result is the computed content with each top-level override key
replacing the corresponding computed key wholesale (so a top-level
`events` key in the override determines the final `events` value, hence
the final value of every hardened key) — and an override that is not a
JSON object yields a `BadJson` error. -/
theorem c3_override_shallow_merge_last (kvs : List (String × JsonV))
    (vis : Visibility) (users : List (String × Int)) (ov : JsonV) (c : JsonV)
    (hnd : (kvs.map Prod.fst).Nodup)
    (hc : default_power_levels_content none vis users = .ok c)
    (hov : ov.isObj = false) :
    default_power_levels_content (some (.obj kvs)) vis users
      = .ok (mergeOverride c kvs)
    ∧ (∀ k, (mergeOverride c kvs).get k
        = (match assocGet kvs k with
           | some v => some v
           | none => c.get k))
    ∧ (∀ ev, assocGet kvs "events" = some ev →
        (mergeOverride c kvs).get "events" = some ev)
    ∧ default_power_levels_content (some ov) vis users
      = .error (.BadRequest .BadJson "Invalid power_level_content_override.") := by
  have hcc : c = computedPL vis users := by
    have := default_power_levels_content_none vis users
    rw [hc] at this
    injection this
  subst hcc
  refine ⟨default_power_levels_content_obj kvs vis users, ?_, ?_, ?_⟩
  · intro k
    unfold computedPL
    rw [mergeOverride_get _ _ _ hnd]
    rfl
  · intro ev hev
    unfold computedPL
    rw [mergeOverride_get _ _ _ hnd, hev]
  · cases ov with
    | obj fs => simp [JsonV.isObj] at hov
    | null => rfl
    | bool b => rfl
    | int n => rfl
    | str s => rfl
    | arr xs => rfl

/-- C3 witness: a concrete override whose `events` key is the (non-object)
value 5 replaces the whole computed `events` map, and a concrete non-object
override is rejected with `BadJson`. -/
theorem c3_override_shallow_merge_last_witness :
    ([("events", JsonV.int 5)].map (Prod.fst)).Nodup
    ∧ default_power_levels_content none .Private [("@alice:example.com", 100)]
        = .ok (computedPL .Private [("@alice:example.com", 100)])
    ∧ (JsonV.arr []).isObj = false
    ∧ default_power_levels_content (some (.obj [("events", .int 5)])) .Private
        [("@alice:example.com", 100)]
        = .ok (mergeOverride (computedPL .Private [("@alice:example.com", 100)])
            [("events", .int 5)])
    ∧ (mergeOverride (computedPL .Private [("@alice:example.com", 100)])
        [("events", .int 5)]).get "events" = some (.int 5)
    ∧ default_power_levels_content (some (.arr [])) .Private
        [("@alice:example.com", 100)]
        = .error (.BadRequest .BadJson "Invalid power_level_content_override.") := by
  have h := c3_override_shallow_merge_last [("events", JsonV.int 5)] .Private
    [("@alice:example.com", 100)] (.arr [])
    (computedPL .Private [("@alice:example.com", 100)])
    (by simp) (default_power_levels_content_none _ _) rfl
  exact ⟨by simp, default_power_levels_content_none _ _, rfl, h.1,
    h.2.2.1 (.int 5) rfl, h.2.2.2⟩

/-! ### C6 -/

/-- C6 counterexample: for a local-part that both contains a colon and
matches the forbidden-name pattern, `room_alias_check` rejects with
`InvalidParam` (colon checked first) but `custom_room_id_check` rejects
with `Unknown` (forbidden-name checked first), so the two validators do
not apply their rules in the same order and the custom-room-id error is
not `InvalidParam`. -/
theorem c6_validation_order_counterexample :
    room_alias_check (fun s => s == "bad:name") (fun _ => true) (fun _ => false)
        (fun _ => false) none "example.com" "bad:name"
      = .error (.BadRequest .InvalidParam
          "Room alias contained a colon which is not allowed.")
    ∧ custom_room_id_check (fun s => s == "bad:name") (fun _ => true)
        "example.com" "bad:name"
      = .error (.BadRequest .Unknown "Custom room ID is forbidden.")
    ∧ ErrorKind.Unknown ≠ ErrorKind.InvalidParam := by
  refine ⟨rfl, rfl, by decide⟩

/-- C6 (amended): the alias validator checks colon, then whitespace, then
the forbidden-name pattern, while the custom-room-id validator checks the
forbidden-name pattern first; consequently, for an input that both
contains a colon and matches the forbidden pattern, the alias validator
returns `InvalidParam` while the custom-room-id validator returns
`Unknown`. -/
theorem c6_validation_order_amended (forbidden parse resolves excl : String → Bool)
    (apps : Option (String → Bool)) (server name : String)
    (hcolon : containsChar name ':' = true) (hforb : forbidden name = true) :
    room_alias_check forbidden parse resolves excl apps server name
      = .error (.BadRequest .InvalidParam
          "Room alias contained a colon which is not allowed.")
    ∧ custom_room_id_check forbidden parse server name
      = .error (.BadRequest .Unknown "Custom room ID is forbidden.") := by
  constructor
  · unfold room_alias_check
    rw [hcolon]
    rfl
  · unfold custom_room_id_check
    rw [hforb]
    rfl

/-- C6 witness: the concrete local-part `bad:name` with a forbidden-name
pattern matching it. -/
theorem c6_validation_order_amended_witness :
    (containsChar "bad:name" ':' = true)
    ∧ ((fun s => s == "bad:name") "bad:name" = true)
    ∧ room_alias_check (fun s => s == "bad:name") (fun _ => true) (fun _ => false)
        (fun _ => false) none "other.example" "bad:name"
      = .error (.BadRequest .InvalidParam
          "Room alias contained a colon which is not allowed.")
    ∧ custom_room_id_check (fun s => s == "bad:name") (fun _ => true)
        "other.example" "bad:name"
      = .error (.BadRequest .Unknown "Custom room ID is forbidden.") := by
  have h := c6_validation_order_amended (fun s => s == "bad:name") (fun _ => true)
    (fun _ => false) (fun _ => false) none "other.example" "bad:name" rfl rfl
  exact ⟨rfl, rfl, h.1, h.2⟩

/-! ### C1 -/

/-- Whether an append's lock token names a room other than the one it
appends to. -/
def appendTokenMismatch : Action → Bool
  | .append token room _ _ _ => !(token == room)
  | _ => false

/-- Number of acquisitions of a given room's lock in a trace. -/
def countAcquires (room : String) : List Action → Nat
  | [] => 0
  | .acquire r :: rest => (if r = room then 1 else 0) + countAcquires room rest
  | _ :: rest => countAcquires room rest

/-- The running number of held locks before each action of a trace (and
after the last one). -/
def locksHeldPrefixes : List Action → Int → List Int
  | [], n => [n]
  | a :: rest, n =>
      locksHeldPrefixes rest (match a with
        | .acquire _ => n + 1
        | .release _ => n - 1
        | _ => n) |>.cons n

/-- Whether a trace never holds two locks simultaneously. -/
def neverTwoLocks (tr : List Action) : Bool :=
  (locksHeldPrefixes tr 0).all (fun n => decide (n ≤ 1))

/-- A concrete upgrade environment in which every step succeeds: a
supported target version, an old room with a create event and default
power levels, no transferable state and no aliases. -/
def upgradeDemoEnv : UpgradeEnv where
  supported_room_versions := [.V11]
  replacement_room := "!new:example.com"
  old_create_content := some (some
    [("creator", .str "@carol:example.com"), ("room_version", .str "9")])
  old_state := fun _ => none
  local_aliases := []
  old_power_levels := some (some {})

/-- C1: the upgrade orchestrator evaluated at a concrete, fully successful
upgrade. The full trace shows that the demotion power-levels event for the
old room is appended while holding the replacement room's lock — the
old-room lock is never re-acquired (it is acquired exactly once, for the
tombstone) and that append's lock token names the replacement room, not
the room it appends to. Only the no-two-locks-at-once part of the claim
holds; the re-acquisition and matching-token parts are contradicted by the
trace, exhibiting the divergence between the code and the claim. -/
theorem c1_demotion_append_under_replacement_lock :
    ((upgrade_room_route upgradeDemoEnv "@alice:example.com" "!old:example.com"
        .V11).run).1 = .ok "!new:example.com"
    ∧ ((upgrade_room_route upgradeDemoEnv "@alice:example.com" "!old:example.com"
        .V11).run).2 =
      [.acquire "!old:example.com",
       .append "!old:example.com" "!old:example.com" "@alice:example.com"
         { event_type := "m.room.tombstone",
           content := .json (.obj [("body", .str "This room has been replaced"),
             ("replacement_room", .str "!new:example.com")]),
           state_key := some "" } "$0",
       .release "!old:example.com",
       .acquire "!new:example.com",
       .append "!new:example.com" "!new:example.com" "@alice:example.com"
         { event_type := "m.room.create",
           content := .json (.obj [("room_version", .str "11"),
             ("predecessor", .obj [("room_id", .str "!old:example.com"),
               ("event_id", .str "$0")])]),
           state_key := some "" } "$1",
       .append "!new:example.com" "!new:example.com" "@alice:example.com"
         { event_type := "m.room.member",
           content := .json (.obj [("membership", .str "join")]),
           state_key := some "@alice:example.com" } "$2",
       .append "!new:example.com" "!old:example.com" "@alice:example.com"
         { event_type := "m.room.power_levels",
           content := .json (.obj [("events_default", .int 50),
             ("invite", .int 50)]),
           state_key := some "" } "$3",
       .release "!new:example.com"]
    ∧ (((upgrade_room_route upgradeDemoEnv "@alice:example.com" "!old:example.com"
        .V11).run).2.filter appendTokenMismatch) =
      [.append "!new:example.com" "!old:example.com" "@alice:example.com"
         { event_type := "m.room.power_levels",
           content := .json (.obj [("events_default", .int 50),
             ("invite", .int 50)]),
           state_key := some "" } "$3"]
    ∧ countAcquires "!old:example.com"
        ((upgrade_room_route upgradeDemoEnv "@alice:example.com" "!old:example.com"
          .V11).run).2 = 1
    ∧ neverTwoLocks ((upgrade_room_route upgradeDemoEnv "@alice:example.com"
        "!old:example.com" .V11).run).2 = true := by
  refine ⟨rfl, rfl, rfl, rfl, rfl⟩

/-! ### Upgrade run lemmas (shared by C4 and C5) -/

/-- The `(content, event id)` pairs of the appends of a given event type to
a given room, in trace order. -/
def typedAppends (room ty : String) : List Action → List (Content × String)
  | [] => []
  | .append _ r _ pdu i :: rest =>
      if r = room ∧ pdu.event_type = ty then (pdu.content, i) :: typedAppends room ty rest
      else typedAppends room ty rest
  | _ :: rest => typedAppends room ty rest

theorem typedAppends_append (room ty : String) (l1 l2 : List Action) :
    typedAppends room ty (l1 ++ l2)
      = typedAppends room ty l1 ++ typedAppends room ty l2 := by
  induction l1 with
  | nil => rfl
  | cons a rest ih =>
      cases a with
      | append token r s pdu i =>
          by_cases h : r = room ∧ pdu.event_type = ty
          · simp [typedAppends, h, ih]
          · simp [typedAppends, h, ih]
      | acquire r => simpa [typedAppends] using ih
      | release r => simpa [typedAppends] using ih
      | aliasRemove a => simpa [typedAppends] using ih
      | aliasSet a r => simpa [typedAppends] using ih
      | invite u r ok => simpa [typedAppends] using ih
      | setPublic r => simpa [typedAppends] using ih
      | adminNotice => simpa [typedAppends] using ih

/-- The actions produced by the transferable-state loop, starting from
event-id counter `n`. -/
def transferActs (env : UpgradeEnv) (sender rr : String) :
    List String → Nat → List Action
  | [], _ => []
  | ty :: tys, n =>
      match env.old_state ty with
      | none => transferActs env sender rr tys n
      | some c =>
          .append rr rr sender { event_type := ty, content := c, state_key := some "" }
            (eventId n) :: transferActs env sender rr tys (n + 1)

/-- The event-id counter after the transferable-state loop. -/
def transferN (env : UpgradeEnv) : List String → Nat → Nat
  | [], n => n
  | ty :: tys, n =>
      match env.old_state ty with
      | none => transferN env tys n
      | some _ => transferN env tys (n + 1)

theorem transferStateEvents_eq (env : UpgradeEnv) (sender rr : String)
    (tys : List String) (st : St) :
    transferStateEvents env sender rr tys st
      = ({ st with
            trace := st.trace ++ transferActs env sender rr tys st.nextId
            nextId := transferN env tys st.nextId }, .ok ()) := by
  induction tys generalizing st with
  | nil => simp [transferStateEvents, transferActs, transferN, M.pure]
  | cons ty tys ih =>
      cases h : env.old_state ty with
      | none => simp [transferStateEvents, transferActs, transferN, h, ih]
      | some c =>
          simp only [transferStateEvents, transferActs, transferN, h, M.bind,
            M.appendPdu]
          rw [ih]
          simp

theorem typedAppends_transferActs_of_room_ne (env : UpgradeEnv)
    (sender rr room ty : String) (hroom : room ≠ rr) :
    ∀ tys n, typedAppends room ty (transferActs env sender rr tys n) = [] := by
  intro tys
  induction tys with
  | nil => intro n; rfl
  | cons ty' tys ih =>
      intro n
      cases h : env.old_state ty' with
      | none => simp [transferActs, h, ih]
      | some c =>
          have : ¬ (rr = room ∧ ty' = ty) := fun hh => hroom hh.1.symm
          simp [transferActs, h, typedAppends, this, ih]

theorem typedAppends_transferActs_of_not_mem (env : UpgradeEnv)
    (sender rr room ty : String) :
    ∀ tys n, ty ∉ tys → typedAppends room ty (transferActs env sender rr tys n) = [] := by
  intro tys
  induction tys with
  | nil => intro n _; rfl
  | cons ty' tys ih =>
      intro n hty
      have h1 : ty' ≠ ty := fun hh => hty (hh ▸ List.mem_cons_self ty' tys)
      have h2 : ty ∉ tys := fun hm => hty (List.mem_cons_of_mem _ hm)
      cases h : env.old_state ty' with
      | none => simp [transferActs, h, ih _ h2]
      | some c =>
          have : ¬ (rr = room ∧ ty' = ty) := fun hh => h1 hh.2
          simp [transferActs, h, typedAppends, this, ih _ h2]

/-- The actions produced by the alias-migration loop. -/
def migrateActs (rr : String) : List String → List Action
  | [] => []
  | a :: rest => .aliasRemove a :: .aliasSet a rr :: migrateActs rr rest

theorem migrateAliases_eq (rr : String) (as' : List String) (st : St) :
    migrateAliases rr as' st
      = ({ st with trace := st.trace ++ migrateActs rr as' }, .ok ()) := by
  induction as' generalizing st with
  | nil => simp [migrateAliases, migrateActs, M.pure]
  | cons a rest ih =>
      simp only [migrateAliases, migrateActs, M.bind, M.record]
      rw [ih]
      simp

theorem typedAppends_migrateActs (rr room ty : String) (as' : List String) :
    typedAppends room ty (migrateActs rr as') = [] := by
  induction as' with
  | nil => rfl
  | cons a rest ih => simp [migrateActs, typedAppends, ih]

theorem assocGet_remove_self (fs : List (String × α)) (k : String)
    (h : (fs.map Prod.fst).Nodup) : assocGet (assocRemove fs k) k = none := by
  induction fs with
  | nil => rfl
  | cons p rest ih =>
      simp only [List.map_cons, List.nodup_cons] at h
      by_cases hp : p.1 = k
      · rw [← hp]
        simp only [assocRemove, if_pos hp, hp]
        rw [hp] at h
        exact assocGet_eq_none_of_not_mem _ _ h.1
      · simp only [assocRemove, if_neg hp, assocGet]
        exact ih h.2

/-- The demoted power-levels content appended to the old room by the
upgrade: `events_default` and `invite` raised to `max 50 (users_default + 1)`. -/
def demotedPL (plc : PowerLevelsContent) : PowerLevelsContent :=
  { plc with
      events_default := max 50 (plc.users_default + 1)
      invite := max 50 (plc.users_default + 1) }

/-- The create-event content assembled for the replacement room: the old
create content with `creator` injected (legacy target version) or removed
(V11+), `room_version` set to the target, and `predecessor` referencing
the old room and the tombstone event id. -/
def upgradedCreateFields (cc : List (String × JsonV)) (sender room_id tid : String)
    (nv : RoomVersion) : List (String × JsonV) :=
  assocSet (assocSet
    (if nv.isLegacy then assocSet cc "creator" (.str sender)
     else assocRemove cc "creator")
    "room_version" (.str nv.str))
    "predecessor" (.obj [("room_id", .str room_id), ("event_id", .str tid)])

/-- The tombstone content appended to the old room. -/
def tombstoneContent (replacement_room : String) : JsonV :=
  .obj [("body", .str "This room has been replaced"),
        ("replacement_room", .str replacement_room)]

theorem checked_add_users_default (plc : PowerLevelsContent)
    (hlo : jsIntMin ≤ plc.users_default) (hhi : plc.users_default ≤ jsIntMax) :
    checked_add plc.users_default 1
      = (if plc.users_default = jsIntMax then none
         else some (plc.users_default + 1)) := by
  by_cases h : plc.users_default = jsIntMax
  · rw [if_pos h, h]
    unfold checked_add jsIntMax jsIntMin
    norm_num
  · rw [if_neg h]
    unfold checked_add
    rw [if_pos ?_]
    simp only [jsIntMin, jsIntMax] at *
    omega

/-- Full evaluation of a room upgrade whose environment reads succeed: the
result and the complete action trace, as a function of whether the
`users_default` increment overflows. -/
theorem upgrade_room_route_run (env : UpgradeEnv) (sender room_id : String)
    (nv : RoomVersion) (cc : List (String × JsonV)) (plc : PowerLevelsContent)
    (hsup : nv ∈ env.supported_room_versions)
    (hcc : env.old_create_content = some (some cc))
    (hpl : env.old_power_levels = some (some plc))
    (hlo : jsIntMin ≤ plc.users_default) (hhi : plc.users_default ≤ jsIntMax) :
    (upgrade_room_route env sender room_id nv).run
      = ((if plc.users_default = jsIntMax
          then .error (.BadRequest .BadJson
            "users_default power levels event content is not valid")
          else .ok env.replacement_room),
         [.acquire room_id,
          .append room_id room_id sender
            { event_type := "m.room.tombstone",
              content := .json (tombstoneContent env.replacement_room),
              state_key := some "" } (eventId 0),
          .release room_id,
          .acquire env.replacement_room,
          .append env.replacement_room env.replacement_room sender
            { event_type := "m.room.create",
              content := .json (.obj (upgradedCreateFields cc sender room_id
                (eventId 0) nv)),
              state_key := some "" } (eventId 1),
          .append env.replacement_room env.replacement_room sender
            { event_type := "m.room.member",
              content := .json (memberJoinContent env.sender_displayname
                env.sender_avatar_url env.sender_blurhash none),
              state_key := some sender } (eventId 2)]
         ++ transferActs env sender env.replacement_room
              TRANSFERABLE_STATE_EVENTS 3
         ++ migrateActs env.replacement_room env.local_aliases
         ++ (if plc.users_default = jsIntMax then []
             else [.append env.replacement_room room_id sender
               { event_type := "m.room.power_levels",
                 content := .json (demotedPL plc).toJson,
                 state_key := some "" }
               (eventId (transferN env TRANSFERABLE_STATE_EVENTS 3))])
         ++ [.release env.replacement_room]) := by
  have hca := checked_add_users_default plc hlo hhi
  by_cases hmax : plc.users_default = jsIntMax
  · rw [if_pos hmax] at hca
    simp only [upgrade_room_route, if_pos hsup, M.run, M.bind, M.withLock,
      M.appendPdu, M.pure, M.throw, upgradeInReplacementLock, hcc, hpl,
      transferStateEvents_eq, migrateAliases_eq, hca, if_pos hmax,
      tombstoneContent, upgradedCreateFields, demotedPL]
    simp
  · rw [if_neg hmax] at hca
    simp only [upgrade_room_route, if_pos hsup, M.run, M.bind, M.withLock,
      M.appendPdu, M.pure, M.throw, upgradeInReplacementLock, hcc, hpl,
      transferStateEvents_eq, migrateAliases_eq, hca, if_neg hmax,
      tombstoneContent, upgradedCreateFields, demotedPL]
    simp

/-! ### C4 -/

/-- C4: during upgrade the demotion level is `max(50, users_default + 1)`
on exact integers — the appended old-room power-levels content is the old
content with both `events_default` and `invite` set to that level — and
when `users_default` is `Int::MAX` the increment overflows, the upgrade
fails with `BadJson`, and no power-levels event is appended to the old
room. -/
theorem c4_demotion_level_and_overflow (env : UpgradeEnv)
    (sender room_id : String) (nv : RoomVersion) (cc : List (String × JsonV))
    (plc : PowerLevelsContent)
    (hsup : nv ∈ env.supported_room_versions)
    (hcc : env.old_create_content = some (some cc))
    (hpl : env.old_power_levels = some (some plc))
    (hne : room_id ≠ env.replacement_room)
    (hlo : jsIntMin ≤ plc.users_default) (hhi : plc.users_default ≤ jsIntMax) :
    ((upgrade_room_route env sender room_id nv).run).1
      = (if plc.users_default = jsIntMax
         then .error (.BadRequest .BadJson
           "users_default power levels event content is not valid")
         else .ok env.replacement_room)
    ∧ typedAppends room_id "m.room.power_levels"
        ((upgrade_room_route env sender room_id nv).run).2
      = (if plc.users_default = jsIntMax then []
         else [(.json (demotedPL plc).toJson,
                eventId (transferN env TRANSFERABLE_STATE_EVENTS 3))])
    ∧ (demotedPL plc).events_default = max 50 (plc.users_default + 1)
    ∧ (demotedPL plc).invite = max 50 (plc.users_default + 1) := by
  have hrun := upgrade_room_route_run env sender room_id nv cc plc hsup hcc hpl
    hlo hhi
  rw [hrun]
  refine ⟨rfl, ?_, rfl, rfl⟩
  by_cases hmax : plc.users_default = jsIntMax
  · simp [hmax, typedAppends_append, typedAppends,
      typedAppends_transferActs_of_room_ne env sender env.replacement_room
        room_id "m.room.power_levels" hne,
      typedAppends_migrateActs]
  · simp [hmax, typedAppends_append, typedAppends,
      typedAppends_transferActs_of_room_ne env sender env.replacement_room
        room_id "m.room.power_levels" hne,
      typedAppends_migrateActs]

/-- C4 witness: a concrete upgrade of a room whose `users_default` is
`Int::MAX` fails with `BadJson` and appends no power-levels event to the
old room. -/
theorem c4_demotion_level_and_overflow_witness :
    ((upgrade_room_route
        { upgradeDemoEnv with
            old_power_levels := some (some { users_default := jsIntMax }) }
        "@alice:example.com" "!old:example.com" .V11).run).1
      = .error (.BadRequest .BadJson
          "users_default power levels event content is not valid")
    ∧ typedAppends "!old:example.com" "m.room.power_levels"
        ((upgrade_room_route
          { upgradeDemoEnv with
              old_power_levels := some (some { users_default := jsIntMax }) }
          "@alice:example.com" "!old:example.com" .V11).run).2 = [] := by
  have h := c4_demotion_level_and_overflow
    { upgradeDemoEnv with
        old_power_levels := some (some { users_default := jsIntMax }) }
    "@alice:example.com" "!old:example.com" .V11
    [("creator", .str "@carol:example.com"), ("room_version", .str "9")]
    { users_default := jsIntMax }
    (by simp [upgradeDemoEnv]) rfl rfl (by decide) (by decide) le_rfl
  refine ⟨?_, ?_⟩
  · simpa using h.1
  · simpa using h.2.1

/-! ### C5 -/

/-- C5: for every successful upgrade, the create event appended to the
replacement room carries a `predecessor` whose `event_id` is the id
returned by the tombstone append and whose `room_id` is the old room's id,
a `room_version` equal to the requested target version, and a `creator`
that is injected for V1-V10 targets and absent for later targets. -/
theorem c5_replacement_create_event (env : UpgradeEnv) (sender room_id : String)
    (nv : RoomVersion) (cc : List (String × JsonV)) (plc : PowerLevelsContent)
    (hsup : nv ∈ env.supported_room_versions)
    (hcc : env.old_create_content = some (some cc))
    (hpl : env.old_power_levels = some (some plc))
    (hne : room_id ≠ env.replacement_room)
    (hlo : jsIntMin ≤ plc.users_default) (hhi : plc.users_default ≤ jsIntMax)
    (hmax : plc.users_default ≠ jsIntMax)
    (hnd : (cc.map Prod.fst).Nodup) :
    ((upgrade_room_route env sender room_id nv).run).1 = .ok env.replacement_room
    ∧ ∃ tid,
        typedAppends room_id "m.room.tombstone"
            ((upgrade_room_route env sender room_id nv).run).2
          = [(.json (tombstoneContent env.replacement_room), tid)]
        ∧ typedAppends env.replacement_room "m.room.create"
            ((upgrade_room_route env sender room_id nv).run).2
          = [(.json (.obj (upgradedCreateFields cc sender room_id tid nv)),
              eventId 1)]
        ∧ assocGet (upgradedCreateFields cc sender room_id tid nv) "predecessor"
            = some (.obj [("room_id", .str room_id), ("event_id", .str tid)])
        ∧ assocGet (upgradedCreateFields cc sender room_id tid nv) "room_version"
            = some (.str nv.str)
        ∧ assocGet (upgradedCreateFields cc sender room_id tid nv) "creator"
            = (if nv.isLegacy then some (.str sender) else none) := by
  have hrun := upgrade_room_route_run env sender room_id nv cc plc hsup hcc hpl
    hlo hhi
  rw [hrun]
  have hne' : ¬ (room_id = env.replacement_room) := hne
  refine ⟨by simp [hmax], eventId 0, ?_, ?_, ?_, ?_, ?_⟩
  · simp [hmax, typedAppends_append, typedAppends, hne',
      typedAppends_transferActs_of_room_ne env sender env.replacement_room
        room_id "m.room.tombstone" hne,
      typedAppends_migrateActs]
  · have hnm : "m.room.create" ∉ TRANSFERABLE_STATE_EVENTS := by decide
    simp [hmax, typedAppends_append, typedAppends, hne',
      typedAppends_transferActs_of_not_mem env sender env.replacement_room
        env.replacement_room "m.room.create" TRANSFERABLE_STATE_EVENTS 3 hnm,
      typedAppends_migrateActs]
  · unfold upgradedCreateFields
    exact assocGet_set_self _ _ _
  · unfold upgradedCreateFields
    rw [assocGet_set_ne _ _ _ _ (by decide)]
    exact assocGet_set_self _ _ _
  · unfold upgradedCreateFields
    rw [assocGet_set_ne _ _ _ _ (by decide), assocGet_set_ne _ _ _ _ (by decide)]
    cases hleg : nv.isLegacy with
    | true => simp [assocGet_set_self]
    | false => simp [assocGet_remove_self _ _ hnd]

/-- C5 witness: the concrete successful upgrade of `upgradeDemoEnv` to V11
— the tombstone gets id `$0`, and the new create event carries that id in
its `predecessor`, the target version `11`, and no `creator`. -/
theorem c5_replacement_create_event_witness :
    ((upgrade_room_route upgradeDemoEnv "@alice:example.com" "!old:example.com"
        .V11).run).1 = .ok "!new:example.com"
    ∧ ∃ tid,
        typedAppends "!old:example.com" "m.room.tombstone"
            ((upgrade_room_route upgradeDemoEnv "@alice:example.com"
              "!old:example.com" .V11).run).2
          = [(.json (tombstoneContent "!new:example.com"), tid)]
        ∧ typedAppends "!new:example.com" "m.room.create"
            ((upgrade_room_route upgradeDemoEnv "@alice:example.com"
              "!old:example.com" .V11).run).2
          = [(.json (.obj (upgradedCreateFields
                [("creator", .str "@carol:example.com"),
                 ("room_version", .str "9")]
                "@alice:example.com" "!old:example.com" tid .V11)),
              eventId 1)]
        ∧ assocGet (upgradedCreateFields
              [("creator", .str "@carol:example.com"),
               ("room_version", .str "9")]
              "@alice:example.com" "!old:example.com" tid .V11) "predecessor"
            = some (.obj [("room_id", .str "!old:example.com"),
                ("event_id", .str tid)])
        ∧ assocGet (upgradedCreateFields
              [("creator", .str "@carol:example.com"),
               ("room_version", .str "9")]
              "@alice:example.com" "!old:example.com" tid .V11) "room_version"
            = some (.str (RoomVersion.V11).str)
        ∧ assocGet (upgradedCreateFields
              [("creator", .str "@carol:example.com"),
               ("room_version", .str "9")]
              "@alice:example.com" "!old:example.com" tid .V11) "creator"
            = (if (RoomVersion.V11).isLegacy then some (.str "@alice:example.com")
               else none) := by
  exact c5_replacement_create_event upgradeDemoEnv "@alice:example.com"
    "!old:example.com" .V11
    [("creator", .str "@carol:example.com"), ("room_version", .str "9")]
    {} (by simp [upgradeDemoEnv]) rfl rfl (by decide) (by decide) (by decide)
    (by decide) (by decide)

/-! ### Creation run lemmas (shared by C7, C8, C9, C10) -/

/-- The actions produced by the `initial_state` loop, starting from
event-id counter `n` (defined for lists whose entries all deserialize). -/
def initialActs (allow_encryption : Bool) (sender room_id : String) :
    List (Option PduB) → Nat → List Action
  | [], _ => []
  | none :: _, _ => []
  | some pb :: rest, n =>
      if contentIsEmptyObjLiteral pb.content then
        initialActs allow_encryption sender room_id rest n
      else
        let pb' := { pb with state_key := some (pb.state_key.getD "") }
        if pb'.event_type = "m.room.encryption" ∧ ¬ allow_encryption then
          initialActs allow_encryption sender room_id rest n
        else
          .append room_id room_id sender pb' (eventId n)
            :: initialActs allow_encryption sender room_id rest (n + 1)

/-- The event-id counter after the `initial_state` loop. -/
def initialN (allow_encryption : Bool) : List (Option PduB) → Nat → Nat
  | [], n => n
  | none :: _, n => n
  | some pb :: rest, n =>
      if contentIsEmptyObjLiteral pb.content then initialN allow_encryption rest n
      else
        let pb' := { pb with state_key := some (pb.state_key.getD "") }
        if pb'.event_type = "m.room.encryption" ∧ ¬ allow_encryption then
          initialN allow_encryption rest n
        else initialN allow_encryption rest (n + 1)

theorem processInitialState_eq (allow_encryption : Bool) (sender room_id : String)
    (es : List (Option PduB)) (st : St) (hall : ∀ e ∈ es, e.isSome) :
    processInitialState allow_encryption sender room_id es st
      = ({ st with
            trace := st.trace
              ++ initialActs allow_encryption sender room_id es st.nextId
            nextId := initialN allow_encryption es st.nextId }, .ok ()) := by
  induction es generalizing st with
  | nil => simp [processInitialState, initialActs, initialN, M.pure]
  | cons e rest ih =>
      cases e with
      | none => exact absurd (hall none (List.mem_cons_self _ _)) (by simp)
      | some pb =>
          have hrest : ∀ e ∈ rest, e.isSome :=
            fun e he => hall e (List.mem_cons_of_mem _ he)
          unfold processInitialState initialActs initialN
          by_cases h1 : contentIsEmptyObjLiteral pb.content
          · simp only [if_pos h1]
            exact ih _ hrest
          · simp only [if_neg h1]
            by_cases h2 : ({ pb with state_key := some (pb.state_key.getD "") }
                : PduB).event_type = "m.room.encryption" ∧ ¬ allow_encryption
            · simp only [if_pos h2]
              exact ih _ hrest
            · simp only [if_neg h2, M.bind, M.appendPdu]
              rw [ih _ hrest]
              simp

/-- The entries of the `initial_state` list that survive the two skip
rules (empty-object content; encryption events while encryption is
disabled). -/
def keepInitial (allow_encryption : Bool) (pb : PduB) : Bool :=
  !contentIsEmptyObjLiteral pb.content
    && !(pb.event_type == "m.room.encryption" && !allow_encryption)

/-- The appends the claim expects from the `initial_state` loop: the
deserialized entries, minus the skipped ones, in list order, with missing
state keys defaulted to the empty string (event ids erased). -/
def expectedInitialAppends (allow_encryption : Bool) (sender room_id : String)
    (es : List (Option PduB)) : List Action :=
  ((es.filterMap id).filter (keepInitial allow_encryption)).map fun pb =>
    .append room_id room_id sender
      { pb with state_key := some (pb.state_key.getD "") } ""

/-- An append action with its event id erased (for statements about order
and content that do not depend on assigned ids). -/
def stripId : Action → Action
  | .append token room sender pdu _ => .append token room sender pdu ""
  | a => a

theorem initialActs_map_stripId (allow_encryption : Bool)
    (sender room_id : String) (es : List (Option PduB)) (n : Nat)
    (hall : ∀ e ∈ es, e.isSome) :
    (initialActs allow_encryption sender room_id es n).map stripId
      = expectedInitialAppends allow_encryption sender room_id es := by
  induction es generalizing n with
  | nil => rfl
  | cons e rest ih =>
      cases e with
      | none => exact absurd (hall none (List.mem_cons_self _ _)) (by simp)
      | some pb =>
          have hrest : ∀ e ∈ rest, e.isSome :=
            fun e he => hall e (List.mem_cons_of_mem _ he)
          by_cases h1 : contentIsEmptyObjLiteral pb.content
          · simp [initialActs, expectedInitialAppends, keepInitial, h1, ih _ hrest]
          · by_cases h2 : pb.event_type = "m.room.encryption" ∧ ¬ allow_encryption
            · have hk : keepInitial allow_encryption pb = false := by
                simp [keepInitial, h1, h2.1, h2.2]
              have h2' : ({ pb with state_key := some (pb.state_key.getD "") }
                  : PduB).event_type = "m.room.encryption" ∧ ¬ allow_encryption := h2
              simp only [initialActs, if_neg h1, if_pos h2']
              rw [ih _ hrest]
              simp [expectedInitialAppends, hk]
            · have hk : keepInitial allow_encryption pb = true := by
                unfold keepInitial
                rcases Decidable.not_and_iff_or_not.mp h2 with h | h
                · simp [h1, h]
                · simp only [not_not] at h
                  simp [h1, h]
              have h2' : ¬ (({ pb with state_key := some (pb.state_key.getD "") }
                  : PduB).event_type = "m.room.encryption" ∧ ¬ allow_encryption) := h2
              simp only [initialActs, if_neg h1, if_neg h2']
              rw [List.map_cons, ih _ hrest]
              simp [expectedInitialAppends, hk, stripId]

/-- The actions produced by the invite-dispatch loop. -/
def inviteActs (invite_ok : String → Bool) (room_id : String) :
    List String → List Action
  | [] => []
  | u :: rest => .invite u room_id (invite_ok u) :: inviteActs invite_ok room_id rest

theorem dispatchInvites_eq (invite_ok : String → Bool) (room_id : String)
    (us : List String) (st : St) :
    dispatchInvites invite_ok room_id us st
      = ({ st with trace := st.trace ++ inviteActs invite_ok room_id us },
         .ok ()) := by
  induction us generalizing st with
  | nil => simp [dispatchInvites, inviteActs, M.pure]
  | cons u rest ih =>
      simp only [dispatchInvites, inviteActs, M.bind, M.record]
      rw [ih]
      simp

/-- The actions of the post-unlock alias registration. -/
def regActs (env : CreateEnv) (aliasOpt : Option String) (room_id : String) :
    List Action :=
  match aliasOpt with
  | some a => if env.set_alias_ok then [.aliasSet a room_id] else []
  | none => []

/-- The result of the post-unlock alias registration. -/
def regRes (env : CreateEnv) (aliasOpt : Option String) : Except ApiError Unit :=
  match aliasOpt with
  | some _ =>
      if env.set_alias_ok then .ok () else .error (.bad_database "set_alias failed")
  | none => .ok ()

theorem registerAlias_eq (env : CreateEnv) (aliasOpt : Option String)
    (room_id : String) (st : St) :
    registerAlias env aliasOpt room_id st
      = ({ st with trace := st.trace ++ regActs env aliasOpt room_id },
         regRes env aliasOpt) := by
  cases aliasOpt with
  | none => simp [registerAlias, regActs, regRes, M.pure]
  | some a =>
      by_cases h : env.set_alias_ok
      · simp [registerAlias, regActs, regRes, h, M.record]
      · simp [registerAlias, regActs, regRes, h, M.throw]

/-- The actions of the post-unlock directory publication. -/
def pubActs (env : CreateEnv) (body : CreateRoomBody) (room_id : String) :
    List Action :=
  if body.visibility = .Public then
    if env.set_public_ok then
      .setPublic room_id :: (if env.admin_room_notices then [.adminNotice] else [])
    else []
  else []

/-- The result of the post-unlock directory publication. -/
def pubRes (env : CreateEnv) (body : CreateRoomBody) : Except ApiError Unit :=
  if body.visibility = .Public then
    if env.set_public_ok then .ok () else .error (.bad_database "set_public failed")
  else .ok ()

theorem publishRoom_eq (env : CreateEnv) (body : CreateRoomBody)
    (room_id : String) (st : St) :
    publishRoom env body room_id st
      = ({ st with trace := st.trace ++ pubActs env body room_id },
         pubRes env body) := by
  by_cases h1 : body.visibility = .Public
  · by_cases h2 : env.set_public_ok
    · by_cases h3 : env.admin_room_notices
      · simp [publishRoom, pubActs, pubRes, h1, h2, h3, M.bind, M.record, M.pure]
      · simp [publishRoom, pubActs, pubRes, h1, h2, h3, M.bind, M.record, M.pure]
    · simp [publishRoom, pubActs, pubRes, h1, h2, M.throw]
  · simp [publishRoom, pubActs, pubRes, h1, M.pure]

/-! ### C8 -/

/-- C8: in the `initial_state` loop, an entry whose content is the literal
empty JSON object is skipped — processing the list is the same as
processing it without that entry, so it is not appended, raises no error,
and the remaining entries are still processed; an encryption entry is
likewise skipped when the server disables encryption; and an entry with no
state key is appended with the empty state key. -/
theorem c8_initial_state_entry_handling (allow1 allow3 : Bool)
    (sender room_id : String) (pb1 pb2 pb3 : PduB)
    (rest1 rest2 rest3 : List (Option PduB)) (st1 st2 st3 : St)
    (h1 : contentIsEmptyObjLiteral pb1.content = true)
    (h2 : pb2.event_type = "m.room.encryption")
    (h3c : contentIsEmptyObjLiteral pb3.content = false)
    (h3ty : pb3.event_type ≠ "m.room.encryption")
    (h3sk : pb3.state_key = none) :
    processInitialState allow1 sender room_id (some pb1 :: rest1) st1
      = processInitialState allow1 sender room_id rest1 st1
    ∧ processInitialState false sender room_id (some pb2 :: rest2) st2
      = processInitialState false sender room_id rest2 st2
    ∧ processInitialState allow3 sender room_id (some pb3 :: rest3) st3
      = processInitialState allow3 sender room_id rest3
          { st3 with
              trace := st3.trace ++ [.append room_id room_id sender
                { pb3 with state_key := some "" } (eventId st3.nextId)]
              nextId := st3.nextId + 1 } := by
  refine ⟨?_, ?_, ?_⟩
  · conv_lhs => unfold processInitialState
    simp only [if_pos h1]
  · conv_lhs => unfold processInitialState
    by_cases hc : contentIsEmptyObjLiteral pb2.content
    · simp only [if_pos hc]
    · simp only [if_neg hc]
      have henc : ({ pb2 with state_key := some (pb2.state_key.getD "") }
          : PduB).event_type = "m.room.encryption" ∧ ¬ (false : Bool) := by
        refine ⟨h2, by simp⟩
      simp only [if_pos henc]
  · conv_lhs => unfold processInitialState
    have h3c' : ¬ (contentIsEmptyObjLiteral pb3.content = true) := by simp [h3c]
    have henc : ¬ (({ pb3 with state_key := some (pb3.state_key.getD "") }
        : PduB).event_type = "m.room.encryption" ∧ ¬ allow3) :=
      fun hh => h3ty hh.1
    simp only [if_neg h3c', if_neg henc, M.bind, M.appendPdu, h3sk, Option.getD]

/-- C8 witness: a concrete list with an empty-object entry, an encryption
entry under disabled encryption, and a state-key-less name entry. -/
theorem c8_initial_state_entry_handling_witness :
    processInitialState true "@alice:example.com" "!r:example.com"
        (some { event_type := "m.room.topic", content := .raw "\x7b\x7d",
                state_key := some "" } :: []) { trace := [], nextId := 0 }
      = processInitialState true "@alice:example.com" "!r:example.com" []
          { trace := [], nextId := 0 }
    ∧ processInitialState false "@alice:example.com" "!r:example.com"
        (some { event_type := "m.room.encryption",
                content := .json (.obj [("algorithm", .str "m.megolm.v1")]),
                state_key := some "" } :: []) { trace := [], nextId := 0 }
      = processInitialState false "@alice:example.com" "!r:example.com" []
          { trace := [], nextId := 0 }
    ∧ processInitialState true "@alice:example.com" "!r:example.com"
        (some { event_type := "m.room.name",
                content := .json (.obj [("name", .str "n")]),
                state_key := none } :: []) { trace := [], nextId := 0 }
      = processInitialState true "@alice:example.com" "!r:example.com" []
          { trace := [.append "!r:example.com" "!r:example.com"
              "@alice:example.com"
              { event_type := "m.room.name",
                content := .json (.obj [("name", .str "n")]),
                state_key := some "" } "$0"]
            nextId := 1 } := by
  have h := c8_initial_state_entry_handling true true "@alice:example.com"
    "!r:example.com"
    { event_type := "m.room.topic", content := .raw "\x7b\x7d", state_key := some "" }
    { event_type := "m.room.encryption",
      content := .json (.obj [("algorithm", .str "m.megolm.v1")]),
      state_key := some "" }
    { event_type := "m.room.name", content := .json (.obj [("name", .str "n")]),
      state_key := none }
    [] [] [] { trace := [], nextId := 0 } { trace := [], nextId := 0 }
    { trace := [], nextId := 0 } rfl rfl rfl (by decide) rfl
  exact ⟨h.1, h.2.1, by simpa using h.2.2⟩

/-! ### C9 -/

/-- Whether an action is an invite dispatch. -/
def isInviteAction : Action → Bool
  | .invite _ _ _ => true
  | _ => false

/-- A trace with its invite-dispatch actions removed. -/
def nonInviteActions (tr : List Action) : List Action :=
  tr.filter (fun a => !isInviteAction a)

theorem nonInviteActions_append (l1 l2 : List Action) :
    nonInviteActions (l1 ++ l2) = nonInviteActions l1 ++ nonInviteActions l2 := by
  simp [nonInviteActions, List.filter_append]

theorem nonInviteActions_inviteActs (f : String → Bool) (room_id : String)
    (us : List String) : nonInviteActions (inviteActs f room_id us) = [] := by
  induction us with
  | nil => rfl
  | cons u rest ih => simp [inviteActs, nonInviteActions, isInviteAction] at *
                      exact ih

/-- C9: the outcome of every invite dispatch is swallowed — for any two
assignments of invite outcomes, the room-creation result (and hence the
returned room id) is identical, and so is the trace outside the invite
actions themselves (so alias registration and directory publication are
unaffected). In particular the operation succeeds regardless of how many
invite dispatches fail whenever it succeeds with all of them succeeding. -/
theorem c9_invite_failures_swallowed (env : CreateEnv) (body : CreateRoomBody)
    (f g : String → Bool) :
    ((create_room_route env body f).run).1 = ((create_room_route env body g).run).1
    ∧ nonInviteActions ((create_room_route env body f).run).2
      = nonInviteActions ((create_room_route env body g).run).2 := by
  unfold create_room_route M.run
  simp only [M.bind]
  cases hchk : createRoomChecks env body { trace := [], nextId := 0 } with
  | mk st1 r1 =>
      cases r1 with
      | error e => exact ⟨rfl, rfl⟩
      | ok room_id =>
          dsimp only
          cases hlock : M.withLock room_id (createRoomLocked env body room_id) st1 with
          | mk st2 r2 =>
              cases r2 with
              | error e => exact ⟨rfl, rfl⟩
              | ok aliasOpt =>
                  dsimp only
                  rw [dispatchInvites_eq f, dispatchInvites_eq g]
                  dsimp only
                  rw [registerAlias_eq, registerAlias_eq]
                  cases hreg : regRes env aliasOpt with
                  | error e =>
                      refine ⟨rfl, ?_⟩
                      simp [nonInviteActions_append, nonInviteActions_inviteActs]
                  | ok u =>
                      dsimp only
                      rw [publishRoom_eq, publishRoom_eq]
                      cases hpub : pubRes env body with
                      | error e =>
                          refine ⟨rfl, ?_⟩
                          simp [nonInviteActions_append,
                            nonInviteActions_inviteActs]
                      | ok u' =>
                          refine ⟨rfl, ?_⟩
                          simp [M.pure, nonInviteActions_append,
                            nonInviteActions_inviteActs]

/-! ### C10 -/

/-- C10: a supplied `creation_content` that fails to deserialize as a
canonical JSON object makes room creation fail with the internal
`bad_database` error (which is not a `BadRequest`), after the room lock
has been acquired and before any event has been appended: the trace is
exactly an acquire followed by the release. -/
theorem c10_bad_creation_content (env : CreateEnv) (body : CreateRoomBody)
    (f : String → Bool) (rid : String) (aliasOpt : Option String)
    (room_version : RoomVersion)
    (hGate : ¬ (!env.allow_room_creation ∧ body.appservice_info.isNone
        ∧ !env.is_admin))
    (hRid : resolveRoomId env body = .ok rid)
    (hEx : env.shortroomid_exists rid = false)
    (hLock : ¬ (body.visibility = .Public ∧ env.lockdown_public_room_directory
        ∧ !env.is_admin ∧ body.appservice_info.isNone))
    (hAlias : resolveAlias env body = .ok aliasOpt)
    (hVer : resolveRoomVersion env body = .ok room_version)
    (hCC : body.creation_content = some none) :
    ((create_room_route env body f).run).1
      = .error (.bad_database "Failed to deserialise content as canonical JSON.")
    ∧ ((create_room_route env body f).run).2 = [.acquire rid, .release rid]
    ∧ ∀ kind msg, (ApiError.bad_database
        "Failed to deserialise content as canonical JSON.")
        ≠ .BadRequest kind msg := by
  have hmain : create_room_route env body f { trace := [], nextId := 0 }
      = ({ trace := [.acquire rid, .release rid], nextId := 0 },
         .error (.bad_database "Failed to deserialise content as canonical JSON.")) := by
    unfold create_room_route createRoomChecks createRoomLocked
    simp only [M.bind, M.lift, M.withLock, M.throw, M.pure, hRid, if_neg hGate,
      if_neg hLock, hEx, hAlias, hVer, hCC, buildCreateContent]
    simp [M.pure]
  unfold M.run
  rw [hmain]
  exact ⟨rfl, rfl, fun kind msg h => by cases h⟩

/-- A concrete environment in which every creation gate passes. -/
def createDemoEnv : CreateEnv where
  allow_room_creation := true
  is_admin := false
  lockdown_public_room_directory := false
  admin_room_notices := false
  server_name := "example.com"
  supported_room_versions := [.V11]
  default_room_version := .V11
  fresh_room_id := "RandomId"
  shortroomid_exists := fun _ => false
  forbidden_alias_names := fun _ => false
  alias_parse_ok := fun _ => true
  room_id_parse_ok := fun _ => true
  resolve_local_alias := fun _ => false
  is_exclusive_alias := fun _ => false
  allow_encryption := true

/-- C10 witness: a concrete creation request whose `creation_content`
fails canonical-JSON deserialization. -/
theorem c10_bad_creation_content_witness :
    ((create_room_route createDemoEnv
        { sender_user := "@alice:example.com", creation_content := some none }
        (fun _ => true)).run).1
      = .error (.bad_database "Failed to deserialise content as canonical JSON.")
    ∧ ((create_room_route createDemoEnv
        { sender_user := "@alice:example.com", creation_content := some none }
        (fun _ => true)).run).2
      = [.acquire "!RandomId:example.com", .release "!RandomId:example.com"] := by
  have h := c10_bad_creation_content createDemoEnv
    { sender_user := "@alice:example.com", creation_content := some none }
    (fun _ => true) "!RandomId:example.com" none .V11
    (by simp [createDemoEnv]) rfl rfl (by simp) rfl rfl rfl
  exact ⟨h.1, h.2.1⟩

/-! ### C7 -/

theorem map_stripId_inviteActs (f : String → Bool) (room_id : String)
    (us : List String) : (inviteActs f room_id us).map stripId
      = inviteActs f room_id us := by
  induction us with
  | nil => rfl
  | cons u rest ih => simp [inviteActs, stripId, ih]

theorem map_stripId_regActs (env : CreateEnv) (aliasOpt : Option String)
    (room_id : String) : (regActs env aliasOpt room_id).map stripId
      = regActs env aliasOpt room_id := by
  cases aliasOpt with
  | none => rfl
  | some a =>
      by_cases h : env.set_alias_ok
      · simp [regActs, h, stripId]
      · simp [regActs, h]

theorem map_stripId_pubActs (env : CreateEnv) (body : CreateRoomBody)
    (room_id : String) : (pubActs env body room_id).map stripId
      = pubActs env body room_id := by
  unfold pubActs
  by_cases h1 : body.visibility = .Public
  · by_cases h2 : env.set_public_ok
    · by_cases h3 : env.admin_room_notices
      · simp [h1, h2, h3, stripId]
      · simp [h1, h2, h3, stripId]
    · simp [h1, h2]
  · simp [h1]

theorem joinRulesContent_eq (p : RoomPreset) :
    joinRulesContent p
      = .obj [("join_rule",
          .str (if p = .PublicChat then "public" else "invite"))] := by
  cases p <;> rfl

theorem guestAccessContent_eq (p : RoomPreset) :
    guestAccessContent p
      = .obj [("guest_access",
          .str (if p = .PublicChat then "forbidden" else "can_join"))] := by
  cases p <;> rfl

/-- C7: for every room creation that passes its gates and whose lock-scope
steps succeed, the bootstrap events are appended in exactly the claimed
order under the single held room lock — create; creator's member join with
state key equal to the sender; power levels; canonical alias if and only
if an alias was requested; join rules (public for the public-chat preset,
else invite); history visibility "shared"; guest access (forbidden for
the public-chat preset, else can-join); the surviving caller-supplied
initial-state events in list order; a name event if and only if a name was
supplied; a topic event if and only if a topic was supplied — and the
operation succeeds with the resolved room id (event ids erased for the
comparison). -/
theorem c7_bootstrap_event_order (env : CreateEnv) (body : CreateRoomBody)
    (f : String → Bool) (rid : String) (aliasOpt : Option String)
    (room_version : RoomVersion) (cc plc : JsonV)
    (hGate : ¬ (!env.allow_room_creation ∧ body.appservice_info.isNone
        ∧ !env.is_admin))
    (hRid : resolveRoomId env body = .ok rid)
    (hEx : env.shortroomid_exists rid = false)
    (hLock : ¬ (body.visibility = .Public ∧ env.lockdown_public_room_directory
        ∧ !env.is_admin ∧ body.appservice_info.isNone))
    (hAlias : resolveAlias env body = .ok aliasOpt)
    (hVer : resolveRoomVersion env body = .ok room_version)
    (hCC : buildCreateContent body.sender_user room_version body.creation_content
        = .ok cc)
    (hPL : default_power_levels_content body.power_level_content_override
        body.visibility
        (usersSeed body.sender_user (resolvePreset body) body.invite) = .ok plc)
    (hInit : ∀ e ∈ body.initial_state, e.isSome)
    (hReg : regRes env aliasOpt = .ok ())
    (hPub : pubRes env body = .ok ()) :
    ((create_room_route env body f).run).1 = .ok rid
    ∧ ((create_room_route env body f).run).2.map stripId
      = [.acquire rid,
         .append rid rid body.sender_user
           { event_type := "m.room.create", content := .json cc,
             state_key := some "" } "",
         .append rid rid body.sender_user
           { event_type := "m.room.member",
             content := .json (memberJoinContent env.sender_displayname
               env.sender_avatar_url env.sender_blurhash (some body.is_direct)),
             state_key := some body.sender_user } "",
         .append rid rid body.sender_user
           { event_type := "m.room.power_levels", content := .json plc,
             state_key := some "" } ""]
        ++ (match aliasOpt with
            | some a => [.append rid rid body.sender_user
                { event_type := "m.room.canonical_alias",
                  content := .json (.obj [("alias", .str a)]),
                  state_key := some "" } ""]
            | none => [])
        ++ [.append rid rid body.sender_user
              { event_type := "m.room.join_rules",
                content := .json (.obj [("join_rule",
                  .str (if resolvePreset body = .PublicChat then "public"
                        else "invite"))]),
                state_key := some "" } "",
            .append rid rid body.sender_user
              { event_type := "m.room.history_visibility",
                content := .json (.obj [("history_visibility", .str "shared")]),
                state_key := some "" } "",
            .append rid rid body.sender_user
              { event_type := "m.room.guest_access",
                content := .json (.obj [("guest_access",
                  .str (if resolvePreset body = .PublicChat then "forbidden"
                        else "can_join"))]),
                state_key := some "" } ""]
        ++ expectedInitialAppends env.allow_encryption body.sender_user rid
             body.initial_state
        ++ (match body.name with
            | some n => [.append rid rid body.sender_user
                { event_type := "m.room.name",
                  content := .json (.obj [("name", .str n)]),
                  state_key := some "" } ""]
            | none => [])
        ++ (match body.topic with
            | some t => [.append rid rid body.sender_user
                { event_type := "m.room.topic",
                  content := .json (.obj [("topic", .str t)]),
                  state_key := some "" } ""]
            | none => [])
        ++ [.release rid]
        ++ inviteActs f rid body.invite
        ++ regActs env aliasOpt rid
        ++ pubActs env body rid := by
  unfold create_room_route createRoomChecks M.run
  simp only [M.bind, M.lift, M.withLock, hRid, if_neg hGate, if_neg hLock, hEx,
    Bool.false_eq_true, if_false, M.pure]
  unfold createRoomLocked
  simp only [M.bind, M.lift, M.appendPdu, hAlias, hVer, hCC, hPL]
  rcases aliasOpt with _ | a <;>
    (simp only [M.bind, M.appendPdu, M.pure];
     rw [processInitialState_eq _ _ _ _ _ hInit];
     cases hn : body.name <;> cases ht : body.topic <;>
       (simp only [M.bind, M.appendPdu, M.pure];
        rw [dispatchInvites_eq];
        (try dsimp only);
        rw [registerAlias_eq];
        simp only [hReg];
        rw [publishRoom_eq];
        simp only [hPub, M.pure];
        refine ⟨by first | rfl | trivial, ?_⟩;
        simp [stripId, List.map_append, initialActs_map_stripId _ _ _ _ _ hInit,
          map_stripId_inviteActs, map_stripId_regActs, map_stripId_pubActs,
          joinRulesContent_eq, guestAccessContent_eq]))

/-- C7 witness: a concrete private, alias-carrying, named creation request
with one initial-state event and one (failing) invite — the full trace is
the claimed bootstrap order under the single lock. -/
theorem c7_bootstrap_event_order_witness :
    ((create_room_route createDemoEnv
        { sender_user := "@alice:example.com"
          room_alias_name := some "myroom"
          name := some "Room"
          topic := some "T"
          initial_state := [some { event_type := "m.room.avatar"
                                   content := .json (.obj [("url", .str "mxc://x")])
                                   state_key := none }]
          invite := ["@bob:example.com"] }
        (fun _ => false)).run).1 = .ok "!RandomId:example.com"
    ∧ (((create_room_route createDemoEnv
        { sender_user := "@alice:example.com"
          room_alias_name := some "myroom"
          name := some "Room"
          topic := some "T"
          initial_state := [some { event_type := "m.room.avatar"
                                   content := .json (.obj [("url", .str "mxc://x")])
                                   state_key := none }]
          invite := ["@bob:example.com"] }
        (fun _ => false)).run).2.map stripId)
      = [.acquire "!RandomId:example.com",
         .append "!RandomId:example.com" "!RandomId:example.com"
           "@alice:example.com"
           { event_type := "m.room.create",
             content := .json (.obj [("room_version", .str "11")]),
             state_key := some "" } "",
         .append "!RandomId:example.com" "!RandomId:example.com"
           "@alice:example.com"
           { event_type := "m.room.member",
             content := .json (.obj [("is_direct", .bool false),
               ("membership", .str "join")]),
             state_key := some "@alice:example.com" } "",
         .append "!RandomId:example.com" "!RandomId:example.com"
           "@alice:example.com"
           { event_type := "m.room.power_levels",
             content := .json (computedPL .Private [("@alice:example.com", 100)]),
             state_key := some "" } "",
         .append "!RandomId:example.com" "!RandomId:example.com"
           "@alice:example.com"
           { event_type := "m.room.canonical_alias",
             content := .json (.obj [("alias", .str "#myroom:example.com")]),
             state_key := some "" } "",
         .append "!RandomId:example.com" "!RandomId:example.com"
           "@alice:example.com"
           { event_type := "m.room.join_rules",
             content := .json (.obj [("join_rule", .str "invite")]),
             state_key := some "" } "",
         .append "!RandomId:example.com" "!RandomId:example.com"
           "@alice:example.com"
           { event_type := "m.room.history_visibility",
             content := .json (.obj [("history_visibility", .str "shared")]),
             state_key := some "" } "",
         .append "!RandomId:example.com" "!RandomId:example.com"
           "@alice:example.com"
           { event_type := "m.room.guest_access",
             content := .json (.obj [("guest_access", .str "can_join")]),
             state_key := some "" } "",
         .append "!RandomId:example.com" "!RandomId:example.com"
           "@alice:example.com"
           { event_type := "m.room.avatar",
             content := .json (.obj [("url", .str "mxc://x")]),
             state_key := some "" } "",
         .append "!RandomId:example.com" "!RandomId:example.com"
           "@alice:example.com"
           { event_type := "m.room.name",
             content := .json (.obj [("name", .str "Room")]),
             state_key := some "" } "",
         .append "!RandomId:example.com" "!RandomId:example.com"
           "@alice:example.com"
           { event_type := "m.room.topic",
             content := .json (.obj [("topic", .str "T")]),
             state_key := some "" } "",
         .release "!RandomId:example.com",
         .invite "@bob:example.com" "!RandomId:example.com" false,
         .aliasSet "#myroom:example.com" "!RandomId:example.com"] := by
  have h := c7_bootstrap_event_order createDemoEnv
    { sender_user := "@alice:example.com"
      room_alias_name := some "myroom"
      name := some "Room"
      topic := some "T"
      initial_state := [some { event_type := "m.room.avatar"
                               content := .json (.obj [("url", .str "mxc://x")])
                               state_key := none }]
      invite := ["@bob:example.com"] }
    (fun _ => false) "!RandomId:example.com" (some "#myroom:example.com") .V11
    (.obj [("room_version", .str "11")])
    (computedPL .Private [("@alice:example.com", 100)])
    (by simp [createDemoEnv]) rfl rfl (by simp) rfl rfl rfl
    (default_power_levels_content_none _ _) (by simp) rfl rfl
  refine ⟨h.1, ?_⟩
  rw [h.2]
  rfl

end RoomCore
